import Mathlib

/-!
Verification model of the CareerPredictor worker (Cloudflare Worker, TypeScript).

The repository's `worker/src/index.ts` contains three concatenated revisions of
the worker; the claims reference the middle revision (the one with the
`mode: analyze | match` dispatcher, `fetchWithTimeout`/`withTimeout` wrappers,
health/test endpoints and the Clado search backend).  The webset (polling)
backend lives in `src/unnamed/part_001`.

JSON values flowing through the worker (request payloads, `response.json()`
results, `JSON.parse` results) are modelled by the inductive `Json` below, and
the relevant JavaScript semantics (truthiness, property access throwing a
TypeError on null/undefined receivers, optional chaining, string coercion of
template literals and `Array.prototype.join`) are modelled by the `js*`
helpers.  `JSON.parse` itself is a runtime primitive, not code of this
repository; model functions that call it take it as an explicit
`jsonParse : String → Option Json` parameter (`none` models a parse throw).
JavaScript numbers are modelled as `Int`: every numeric literal involved in the
claims (lengths, counts, HTTP statuses, `found` counters) is integral.
-/

inductive Json where
  | null
  | bool (b : Bool)
  | num (n : Int)
  | str (s : String)
  | arr (elems : List Json)
  | obj (fields : List (String × Json))
deriving Repr, BEq, Inhabited

mutual

def Json.decEq : (a b : Json) → Decidable (a = b)
  | .null, .null => isTrue rfl
  | .bool a, .bool b =>
    if h : a = b then isTrue (by rw [h])
    else isFalse (by intro hc; cases hc; exact h rfl)
  | .num a, .num b =>
    if h : a = b then isTrue (by rw [h])
    else isFalse (by intro hc; cases hc; exact h rfl)
  | .str a, .str b =>
    if h : a = b then isTrue (by rw [h])
    else isFalse (by intro hc; cases hc; exact h rfl)
  | .arr a, .arr b =>
    match Json.decEqList a b with
    | isTrue h => isTrue (by rw [h])
    | isFalse h => isFalse (by intro hc; cases hc; exact h rfl)
  | .obj a, .obj b =>
    match Json.decEqFields a b with
    | isTrue h => isTrue (by rw [h])
    | isFalse h => isFalse (by intro hc; cases hc; exact h rfl)
  | .null, .bool _ | .null, .num _ | .null, .str _ | .null, .arr _ | .null, .obj _
  | .bool _, .null | .bool _, .num _ | .bool _, .str _ | .bool _, .arr _ | .bool _, .obj _
  | .num _, .null | .num _, .bool _ | .num _, .str _ | .num _, .arr _ | .num _, .obj _
  | .str _, .null | .str _, .bool _ | .str _, .num _ | .str _, .arr _ | .str _, .obj _
  | .arr _, .null | .arr _, .bool _ | .arr _, .num _ | .arr _, .str _ | .arr _, .obj _
  | .obj _, .null | .obj _, .bool _ | .obj _, .num _ | .obj _, .str _ | .obj _, .arr _ =>
    isFalse (by intro hc; cases hc)

def Json.decEqList : (a b : List Json) → Decidable (a = b)
  | [], [] => isTrue rfl
  | [], _ :: _ => isFalse (by intro hc; cases hc)
  | _ :: _, [] => isFalse (by intro hc; cases hc)
  | x :: xs, y :: ys =>
    match Json.decEq x y with
    | isTrue h1 =>
      match Json.decEqList xs ys with
      | isTrue h2 => isTrue (by rw [h1, h2])
      | isFalse h2 => isFalse (by intro hc; cases hc; exact h2 rfl)
    | isFalse h1 => isFalse (by intro hc; cases hc; exact h1 rfl)

def Json.decEqFields : (a b : List (String × Json)) → Decidable (a = b)
  | [], [] => isTrue rfl
  | [], _ :: _ => isFalse (by intro hc; cases hc)
  | _ :: _, [] => isFalse (by intro hc; cases hc)
  | (k, v) :: xs, (k2, v2) :: ys =>
    if hk : k = k2 then
      match Json.decEq v v2 with
      | isTrue h1 =>
        match Json.decEqFields xs ys with
        | isTrue h2 => isTrue (by rw [hk, h1, h2])
        | isFalse h2 => isFalse (by intro hc; cases hc; exact h2 rfl)
      | isFalse h1 => isFalse (by intro hc; cases hc; exact h1 rfl)
    else isFalse (by intro hc; cases hc; exact hk rfl)

end

instance : DecidableEq Json := Json.decEq

namespace Json

/-- JavaScript truthiness of a JSON value (`undefined` is handled at the
`Option Json` level by `optTruthy`). -/
def truthy : Json → Bool
  | .null => false
  | .bool b => b
  | .num n => n != 0
  | .str s => s != ""
  | .arr _ => true
  | .obj _ => true

/-- `typeof v === 'object'` (true for null, arrays and plain objects). -/
def typeofObject : Json → Bool
  | .null => true
  | .arr _ => true
  | .obj _ => true
  | _ => false

end Json

/-- Truthiness of a possibly-`undefined` value (`none` = `undefined`). -/
def optTruthy : Option Json → Bool
  | none => false
  | some v => v.truthy

/-- A thrown JavaScript error: either `new Error(msg)` thrown by the worker's
own code, or a runtime `TypeError` (property access on null/undefined,
calling a method that does not exist). -/
inductive JsError where
  | error (msg : String)
  | typeError (msg : String)
deriving Repr, BEq, DecidableEq

/-- `error instanceof Error ? error.message : ...` — both modelled error kinds
are `Error` instances, so this is total. -/
def messageOf : JsError → String
  | .error m => m
  | .typeError m => m

/-- One decimal digit of a property key. -/
def charDigit? (c : Char) : Option Nat :=
  if c = '0' then some 0 else if c = '1' then some 1 else if c = '2' then some 2
  else if c = '3' then some 3 else if c = '4' then some 4 else if c = '5' then some 5
  else if c = '6' then some 6 else if c = '7' then some 7 else if c = '8' then some 8
  else if c = '9' then some 9 else none

def strToNatAux (acc : Nat) : List Char → Option Nat
  | [] => some acc
  | c :: cs =>
    match charDigit? c with
    | some d => strToNatAux (acc * 10 + d) cs
    | none => none

/-- A property key read as an array index (decimal digits only). -/
def strIndex? (s : String) : Option Nat :=
  match s.data with
  | [] => none
  | l => strToNatAux 0 l

/-- Object-key (or array-index / string-index) lookup, for receivers that are
known not to be null.  `none` models `undefined`. -/
def getProp? (v : Json) (k : String) : Option Json :=
  match v with
  | .obj fields => (fields.find? (fun f => f.1 == k)).map (·.2)
  | .arr elems =>
    if k == "length" then some (.num elems.length)
    else match strIndex? k with
         | some i => elems.get? i
         | none => none
  | .str s =>
    if k == "length" then some (.num s.length)
    else match strIndex? k with
         | some i => (s.data.get? i).map (fun c => .str (String.mk [c]))
         | none => none
  | _ => none

/-- Plain property access `v.k`: throws a TypeError when the receiver is
null (our `Json` has no `undefined` receiver; that case is handled by
`jsGetO`). -/
def jsGet (v : Json) (k : String) : Except JsError (Option Json) :=
  match v with
  | .null => .error (.typeError ("Cannot read properties of null (reading " ++ k ++ ")"))
  | v => .ok (getProp? v k)

/-- Plain property access on a possibly-`undefined` receiver. -/
def jsGetO (v : Option Json) (k : String) : Except JsError (Option Json) :=
  match v with
  | none => .error (.typeError ("Cannot read properties of undefined (reading " ++ k ++ ")"))
  | some w => jsGet w k

/-- Optional-chained property access `v?.k`. -/
def jsField? (v : Option Json) (k : String) : Option Json :=
  match v with
  | none => none
  | some .null => none
  | some w => getProp? w k

/-- Optional-chained index access `v?.[i]`. -/
def jsIndex? (v : Option Json) (i : Nat) : Option Json :=
  match v with
  | none => none
  | some .null => none
  | some w => getProp? w (toString i)

mutual

/-- The string a JSON value contributes to a template literal or to string
concatenation (`String(v)` conversion).  Arrays stringify as their elements
joined by `,` with null elements becoming empty (Array.prototype.toString);
plain objects stringify as `[object Object]`. -/
def jsToStr : Json → String
  | .null => "null"
  | .bool b => if b then "true" else "false"
  | .num n => toString n
  | .str s => s
  | .arr elems => String.intercalate "," (jsToStrElems elems)
  | .obj _ => "[object Object]"

/-- Element strings of `Array.prototype.toString` (null elements empty). -/
def jsToStrElems : List Json → List String
  | [] => []
  | .null :: rest => "" :: jsToStrElems rest
  | e :: rest => jsToStr e :: jsToStrElems rest

end

/-- Template-literal conversion of a possibly-`undefined` value. -/
def jsToStrO : Option Json → String
  | none => "undefined"
  | some v => jsToStr v

/-- Element conversion used by `Array.prototype.join`: null and undefined
become the empty string; everything else uses the `String()` conversion. -/
def jsJoinElem : Option Json → String
  | none => ""
  | some .null => ""
  | some v => jsToStr v

/-- `Object.keys(v)` for a parsed-JSON value. -/
def jsKeys : Json → List String
  | .obj fields => fields.map (·.1)
  | .arr elems => (List.range elems.length).map toString
  | .str s => (List.range s.length).map toString
  | _ => []

/-- JS `\s` on the ASCII range (the worker never feeds exotic Unicode
whitespace into these regexes or trims). -/
def isJsWs (c : Char) : Bool :=
  c = ' ' || c = '\t' || c = '\n' || c = '\r' || c = Char.ofNat 12 || c = Char.ofNat 11

/-- `String.prototype.trim`, modelled structurally on the character list. -/
def jsTrim (s : String) : String :=
  String.mk (((s.data.dropWhile isJsWs).reverse.dropWhile isJsWs).reverse)

/-- `String.prototype.substring(0, n)`, modelled structurally. -/
def jsTake (s : String) (n : Nat) : String :=
  String.mk (s.data.take n)

/-- JS numeric coercion as used by `x >= 3` on a `found` counter.  Primitives
are modelled exactly; for arrays and plain objects (whose `ToPrimitive` is
not reached by any claim) the model yields `none` (NaN), making every
comparison false. -/
def jsToNumber : Option Json → Option Int
  | none => none                               -- undefined → NaN
  | some .null => some 0
  | some (.bool b) => some (if b then 1 else 0)
  | some (.num n) => some n
  | some (.str s) =>
    if jsTrim s == "" then some 0
    else (jsTrim s).toInt?                      -- non-numeric strings → NaN
  | some (.arr _) => none
  | some (.obj _) => none

/-- `v >= k` under JS numeric coercion (false when `v` coerces to NaN). -/
def jsGEnum (v : Option Json) (k : Int) : Bool :=
  match jsToNumber v with
  | none => false
  | some n => k ≤ n

/-- One escaped character of `JSON.stringify` string output. -/
def jsonEscapeChar (c : Char) : String :=
  if c = '"' then "\\\""
  else if c = '\\' then "\\\\"
  else if c = '\n' then "\\n"
  else if c = '\r' then "\\r"
  else if c = '\t' then "\\t"
  else if c.toNat < 32 then "\\u00" ++ (Nat.toDigits 16 c.toNat).asString
  else String.mk [c]

mutual

/-- `JSON.stringify` (no spacing), used by the extractor's last-resort
response-text fallback.  Braces are produced via their character codes. -/
def jsonStringify : Json → String
  | .null => "null"
  | .bool b => if b then "true" else "false"
  | .num n => toString n
  | .str s => "\"" ++ String.join (s.data.map jsonEscapeChar) ++ "\""
  | .arr elems => "[" ++ String.intercalate "," (jsonStringifyList elems) ++ "]"
  | .obj fields => String.mk [Char.ofNat 123] ++
      String.intercalate "," (jsonStringifyFields fields) ++
      String.mk [Char.ofNat 125]

def jsonStringifyList : List Json → List String
  | [] => []
  | e :: rest => jsonStringify e :: jsonStringifyList rest

def jsonStringifyFields : List (String × Json) → List String
  | [] => []
  | (k, v) :: rest =>
    ("\"" ++ String.join (k.data.map jsonEscapeChar) ++ "\":" ++ jsonStringify v) ::
      jsonStringifyFields rest

end

/-- `JSON.stringify(Object.keys(data))` as it appears in the crawl failure
message. -/
def stringifyKeys (ks : List String) : String :=
  "[" ++ String.intercalate "," (ks.map fun k =>
    "\"" ++ String.join (k.data.map jsonEscapeChar) ++ "\"") ++ "]"

/-! ## Constants (middle revision of `worker/src/index.ts`) -/

def MAX_POINTS_OF_INTEREST : Nat := 10
def MAX_SELECTED_POINTS : Nat := 3
def EXA_REQUEST_TIMEOUT_MS : Nat := 30000
def AI_REQUEST_TIMEOUT_MS : Nat := 60000
def CLADO_REQUEST_TIMEOUT_MS : Nat := 30000

def corsHeaders : List (String × String) :=
  [("Access-Control-Allow-Origin", "*"),
   ("Access-Control-Allow-Methods", "POST, OPTIONS"),
   ("Access-Control-Allow-Headers", "Content-Type")]

def jsonCorsHeaders : List (String × String) :=
  corsHeaders ++ [("Content-Type", "application/json")]

/-! ## Asynchronous operations and the timeout guards

An external asynchronous operation is modelled by when it settles and with
what value; `never` models an operation that never settles.  `withTimeout`
races the operation against a `setTimeout` timer and `fetchWithTimeout`
aborts the transport and converts the `AbortError` into `Error(msg)` — both
are observationally `awaitTimed`. -/

inductive AsyncOutcome (α : Type) where
  | completesAt (t : Nat) (r : α)
  | never

/-- `withTimeout(promise, timeoutMs, timeoutMessage)` from `index.ts`:
the timer wins (rejecting with `Error(timeoutMessage)`) unless the operation
settles strictly before `timeoutMs`. -/
def withTimeout (op : AsyncOutcome α) (timeoutMs : Nat) (timeoutMessage : String) :
    Except JsError α :=
  match op with
  | .completesAt t r => if t < timeoutMs then .ok r else .error (.error timeoutMessage)
  | .never => .error (.error timeoutMessage)

/-- An HTTP response as observed by the worker: `ok`/`status`, the parsed
`response.json()` body and the raw `response.text()` body. -/
structure FetchReply where
  ok : Bool
  status : Nat
  jsonBody : Json
  textBody : String

/-- `fetchWithTimeout(resource, init, timeoutMs, timeoutMessage)` from
`index.ts`: aborts the fetch at the deadline and rethrows the resulting
`AbortError` as `Error(timeoutMessage)`. -/
def fetchWithTimeout (op : AsyncOutcome FetchReply) (timeoutMs : Nat)
    (timeoutMessage : String) : Except JsError FetchReply :=
  match op with
  | .completesAt t r => if t < timeoutMs then .ok r else .error (.error timeoutMessage)
  | .never => .error (.error timeoutMessage)

/-- Awaiting a bare `fetch(...)` with no timeout wrapper (as in the webset
revision `src/unnamed/part_001`): `none` means the request never settles and
the worker hangs. -/
def awaitRaw (op : AsyncOutcome α) : Option α :=
  match op with
  | .completesAt _ r => some r
  | .never => none

/-! ## Criteria Extractor (`extractCriteria`, middle revision)

The regex `/\[[\s\S]*?\]/` (leftmost, lazy) is modelled by `firstBracketMatch`
and the fenced-block regex ``/``&#96;(?:json)?\s*(\[[\s\S]*?\])\s*``&#96;/`` by
`codeBlockCapture`. -/

def backtickChar : Char := Char.ofNat 96

/-- Lazy completion of `\[[\s\S]*?\]`: the chars after a `[` up to and
including the first `]`. -/
def lazyToClose : List Char → Option (List Char)
  | [] => none
  | c :: rest => if c = ']' then some [c] else (lazyToClose rest).map (c :: ·)

/-- Leftmost match of `/\[[\s\S]*?\]/`. -/
def firstBracketAux : List Char → Option (List Char)
  | [] => none
  | c :: rest =>
    if c = '[' then
      match lazyToClose rest with
      | some body => some ('[' :: body)
      | none => firstBracketAux rest
    else firstBracketAux rest

def firstBracketMatch (s : String) : Option String :=
  (firstBracketAux s.data).map String.mk

/-- Does `]` close the fenced capture here, i.e. is the remainder
`\s*` followed by three backticks? -/
def fenceClosesAfter (l : List Char) : Bool :=
  match l.dropWhile isJsWs with
  | a :: b :: c :: _ => a = backtickChar && b = backtickChar && c = backtickChar
  | _ => false

/-- Lazy completion of the capture group `(\[[\s\S]*?\])` inside the fence
regex: up to and including the first `]` that is followed by `\s*` and a
closing triple backtick. -/
def lazyToFenceClose : List Char → Option (List Char)
  | [] => none
  | c :: rest =>
    if c = ']' && fenceClosesAfter rest then some [c]
    else (lazyToFenceClose rest).map (c :: ·)

/-- Attempt of the fence regex anchored at the current position. -/
def fenceAt (l : List Char) : Option String :=
  match l with
  | a :: b :: c :: rest =>
    if a = backtickChar && b = backtickChar && c = backtickChar then
      let rest2 := if rest.take 4 = ['j', 's', 'o', 'n'] then rest.drop 4 else rest
      match rest2.dropWhile isJsWs with
      | '[' :: inner =>
        match lazyToFenceClose inner with
        | some body => some (String.mk ('[' :: body))
        | none => none
      | _ => none
    else none
  | _ => none

/-- Leftmost capture of ``/``&#96;(?:json)?\s*(\[[\s\S]*?\])\s*``&#96;/``. -/
def codeBlockAux : List Char → Option String
  | [] => none
  | l@(_ :: rest) =>
    match fenceAt l with
    | some cap => some cap
    | none => codeBlockAux rest

def codeBlockCapture (s : String) : Option String :=
  codeBlockAux s.data

/-- The response-text unwrapping chain of `extractCriteria` (middle revision):
a string response is used directly; otherwise the first of the
`response`/`text`/`content`/`message` fields that is a truthy string;
otherwise the whole response stringified; primitives via `String(...)`. -/
def responseTextOf (aiResponse : Json) : String :=
  match aiResponse with
  | .str s => s
  | .arr _ | .obj _ =>
    let pick := fun (k : String) =>
      match getProp? aiResponse k with
      | some (.str s) => if s ≠ "" then some s else none
      | _ => none
    match pick "response" with
    | some s => s
    | none =>
      match pick "text" with
      | some s => s
      | none =>
        match pick "content" with
        | some s => s
        | none =>
          match pick "message" with
          | some s => s
          | none => jsonStringify aiResponse
  | v => jsToStr v

/-- Is the `pointsOfInterest` accumulator still in need of a fallback, i.e.
`!Array.isArray(x) || x.length === 0`? -/
def needsFallback : Json → Bool
  | .arr elems => elems.isEmpty
  | _ => true

/-- The ordered parsing fallback chain of `extractCriteria`: (a) parse the
whole text, accepting an array directly or unwrapping an object's
`pointsOfInterest`/`results` array field; (b) on a parse throw only, parse the
first lazily-bracketed substring; (c) if the accumulator is still not a
non-empty array, parse the capture of the fenced-code-block regex.  Returns
`none` when no strategy produced a non-empty array (the
`No valid JSON array found` throw). -/
def extractPointsArray (jsonParse : String → Option Json) (responseText : String) :
    Option (List Json) :=
  let afterDirect : Json :=
    match jsonParse responseText with
    | some (.arr elems) => .arr elems
    | some parsed =>
      if parsed.truthy then
        match getProp? parsed "pointsOfInterest" with
        | some (.arr elems) => .arr elems
        | _ =>
          match getProp? parsed "results" with
          | some (.arr elems) => .arr elems
          | _ => .arr []
      else .arr []
    | none =>
      match firstBracketMatch responseText with
      | some sub =>
        match jsonParse sub with
        | some v => v
        | none => .arr []
      | none => .arr []
  let afterFence : Json :=
    if needsFallback afterDirect then
      match codeBlockCapture responseText with
      | some cap =>
        match jsonParse cap with
        | some v => v
        | none => afterDirect
      | none => afterDirect
    else afterDirect
  match afterFence with
  | .arr [] => none
  | .arr elems => some elems
  | _ => none

/-- The per-entry validation filter of `extractCriteria`: the entry is truthy,
`typeof === 'object'`, has a truthy string `description` whose trim is
non-empty, and a truthy string `type`. -/
def isValidPoint (point : Json) : Bool :=
  point.truthy && point.typeofObject &&
  (match getProp? point "description" with
   | some (.str d) => d ≠ "" && (jsTrim d).length > 0
   | _ => false) &&
  (match getProp? point "type" with
   | some (.str t) => t ≠ ""
   | _ => false)

/-- Body of `extractCriteria`'s `try` block after the Workers AI call:
unwrap the response text, fail on an empty text, run the parsing fallback
chain, filter the entries, fail when none survive, and cap the survivors to
`MAX_POINTS_OF_INTEREST`. -/
def extractCriteriaCore (jsonParse : String → Option Json) (aiResponse : Json) :
    Except JsError (List Json) :=
  if responseTextOf aiResponse = "" || (jsTrim (responseTextOf aiResponse)).length = 0 then
    .error (.error "Workers AI returned an empty response")
  else
    match extractPointsArray jsonParse (responseTextOf aiResponse) with
    | none =>
      .error (.error ("No valid JSON array found in AI response. Response preview: " ++
        jsTake (responseTextOf aiResponse) 300))
    | some pointsOfInterest =>
      if (pointsOfInterest.filter isValidPoint).isEmpty then
        .error (.error "No valid points of interest extracted from profile")
      else
        .ok ((pointsOfInterest.filter isValidPoint).take MAX_POINTS_OF_INTEREST)

/-- `extractCriteria(markdown, ai)` (middle revision).  The Workers AI call is
the async operation `aiOp`; the prompt built from the crawled markdown only
influences what the model returns, which the oracle `aiOp` supplies, so the
markdown itself does not appear.  The surrounding `try/catch` rewraps any
failure message. -/
def extractCriteriaTry (jsonParse : String → Option Json) (aiOp : AsyncOutcome Json) :
    Except JsError (List Json) :=
  match withTimeout aiOp AI_REQUEST_TIMEOUT_MS "Workers AI request timed out" with
  | .error e => .error e
  | .ok aiResponse => extractCriteriaCore jsonParse aiResponse

def extractCriteria (jsonParse : String → Option Json) (aiOp : AsyncOutcome Json) :
    Except JsError (List Json) :=
  match extractCriteriaTry jsonParse aiOp with
  | .error e =>
    .error (.error ("Failed to extract points of interest from LinkedIn profile: " ++
      messageOf e))
  | .ok points => .ok points

/-- `Array.prototype.map` with a callback that can throw: the first throw
aborts the whole map. -/
def exceptMap (f : α → Except JsError β) : List α → Except JsError (List β)
  | [] => .ok []
  | x :: xs =>
    match f x with
    | .error e => .error e
    | .ok y =>
      match exceptMap f xs with
      | .error e => .error e
      | .ok ys => .ok (y :: ys)

/-! ## Profile Crawler Adapter (`crawlLinkedInProfile`, middle revision) -/

/-- The map callback of extraction strategy 3: per result push `title`,
`text`, `summary` when truthy and join with `\n`.  A null element throws a
TypeError (plain property access inside the callback). -/
def crawlJoinOne (result : Json) : Except JsError String := do
  let titleV ← jsGet result "title"
  let textV ← jsGet result "text"
  let summaryV ← jsGet result "summary"
  let parts : List String :=
    (if optTruthy titleV then [jsJoinElem titleV] else []) ++
    (if optTruthy textV then [jsJoinElem textV] else []) ++
    (if optTruthy summaryV then [jsJoinElem summaryV] else [])
  pure (String.intercalate "\n" parts)

/-- Strategy 3 of the crawl extraction: map every result to its joined
title/text/summary, drop blank entries, join with blank lines. -/
def crawlConcatResults (results : List Json) : Except JsError String := do
  let texts ← exceptMap crawlJoinOne results
  pure (String.intercalate "\n\n" (texts.filter (fun text => (jsTrim text).length > 0)))

/-- The `primaryText` computation of `crawlLinkedInProfile`: (1) a truthy
`context` with non-blank trim; (2) a truthy, non-blank `results[0].text`;
(3) the concatenation of all results when `results` is truthy with positive
`length`.  `none` = `primaryText` left `undefined`.  Calling `.trim()` on a
truthy non-string or `.map` on a non-array is a TypeError, as in JS. -/
def crawlStep23 (data : Json) : Except JsError (Option String) := do
  let resultsV ← jsGet data "results"
  let firstTextV := jsField? (jsIndex? resultsV 0) "text"
  let step2 : Except JsError (Option String) :=
    if optTruthy firstTextV then
      match firstTextV with
      | some (.str t) =>
        if 0 < (jsTrim t).length then .ok (some t) else .ok none
      | _ => .error (.typeError "text.trim is not a function")
    else .ok none
  match step2 with
  | .error e => .error e
  | .ok (some t) => pure (some t)
  | .ok none =>
    if optTruthy resultsV && jsGEnum (jsField? resultsV "length") 1 then
      match resultsV with
      | some (.arr results) => do
        let joined ← crawlConcatResults results
        pure (some joined)
      | _ => .error (.typeError "data.results.map is not a function")
    else
      pure none

def crawlPrimaryText (data : Json) : Except JsError (Option String) := do
  let contextV ← jsGet data "context"
  let step1 : Except JsError (Option String) :=
    if optTruthy contextV then
      match contextV with
      | some (.str c) =>
        if 0 < (jsTrim c).length then .ok (some c) else .ok none
      | _ => .error (.typeError "data.context.trim is not a function")
    else .ok none
  match step1 with
  | .error e => .error e
  | .ok (some c) => pure (some c)
  | .ok none => crawlStep23 data

/-- The text extraction of `crawlLinkedInProfile` applied to a parsed crawl
response: the three-strategy `primaryText` computation followed by the final
`!primaryText || primaryText.trim().length === 0` guard, which throws the
crawl failure naming the response's top-level keys. -/
def crawlExtractText (data : Json) : Except JsError String := do
  let primaryText ← crawlPrimaryText data
  match primaryText with
  | some s =>
    if s = "" || (jsTrim s).length = 0 then
      .error (.error ("Failed to crawl LinkedIn profile: No text content returned. Response structure: " ++
        stringifyKeys (jsKeys data)))
    else
      pure s
  | none =>
    .error (.error ("Failed to crawl LinkedIn profile: No text content returned. Response structure: " ++
      stringifyKeys (jsKeys data)))

/-- `crawlLinkedInProfile(url, apiKey)` (middle revision): one
`fetchWithTimeout` call against the Exa contents endpoint, a non-2xx guard,
then the text extraction.  Its own `try/catch` rethrows `Error` instances
unchanged, so it is not visible here. -/
def crawlLinkedInProfile (crawlOp : AsyncOutcome FetchReply) : Except JsError String :=
  match fetchWithTimeout crawlOp EXA_REQUEST_TIMEOUT_MS
      "Exa API request timed out after 30 seconds" with
  | .error e => .error e
  | .ok response =>
    if !response.ok then
      .error (.error ("Exa API error: " ++ toString response.status ++ " - " ++
        response.textBody))
    else
      crawlExtractText response.jsonBody

/-! ## Request Dispatcher (`fetch` handler, middle revision) -/

/-- The worker's environment bindings; `AI` is an opaque binding whose only
dispatcher-visible property is truthiness (presence). -/
structure Env where
  EXA_API_KEY : String
  AI : Bool
  CLADO_API_KEY : String

/-- An inbound HTTP request: method, URL path, and the parsed JSON body
(`none` models `request.json()` rejecting). -/
structure HttpRequest where
  method : String
  path : String
  body : Option Json

/-- A response produced before (or instead of) running any pipeline stage.
`bodyMsg = none` is the `null` preflight body; otherwise the body's
message/marker string. -/
structure WorkerResponse where
  statusCode : Nat
  headers : List (String × String)
  bodyMsg : Option String
deriving Repr, BEq, DecidableEq

/-- What the dispatcher decides to do with a request: answer immediately
(no external call has been or will be made), or enter one of the two
pipelines (which is where the external calls happen). -/
inductive Outcome where
  | response (r : WorkerResponse)
  | analyzePipeline (linkedinUrl : Option Json)
  | matchPipeline (careerGoal : String) (selectedPoints : List Json)
deriving Repr, BEq, DecidableEq

/-- Does the dispatcher outcome go on to issue external network calls? -/
def issuesExternalCall : Outcome → Bool
  | .response _ => false
  | .analyzePipeline _ => true
  | .matchPipeline _ _ => true

/-- An immediate error response with the CORS + JSON headers. -/
def errResponse (status : Nat) (msg : String) : Outcome :=
  .response ⟨status, jsonCorsHeaders, some msg⟩

/-- The `mode === 'match'` branch: `careerGoal` truthiness and `.trim()`
check (a truthy non-string `careerGoal` throws a TypeError, caught as a 500),
then the `selectedPoints` array/length validation, then hand the first
`MAX_SELECTED_POINTS` points to the Match Finder. -/
def dispatchMatch (payload : Json) : Outcome :=
  let careerGoalV := getProp? payload "careerGoal"
  if !optTruthy careerGoalV then
    errResponse 400 "Missing career goal for match request"
  else
    match careerGoalV with
    | some (.str careerGoal) =>
      if jsTrim careerGoal = "" then
        errResponse 400 "Missing career goal for match request"
      else
        match getProp? payload "selectedPoints" with
        | some (.arr selectedPoints) =>
          if selectedPoints.isEmpty then
            errResponse 400 "Please provide up to 3 selected experiences"
          else if selectedPoints.length ≠ MAX_SELECTED_POINTS then
            errResponse 400 "Exactly 3 experiences are required to find matches"
          else
            .matchPipeline careerGoal (selectedPoints.take MAX_SELECTED_POINTS)
        | _ => errResponse 400 "Please provide up to 3 selected experiences"
    | _ => errResponse 500 "careerGoal.trim is not a function"

/-- The analyze branch: `'linkedinUrl' in payload` (a TypeError on a
primitive payload, caught as a 500) and the truthiness check. -/
def dispatchAnalyze (payload : Json) : Outcome :=
  match payload with
  | .obj fields =>
    let linkedinUrlV := getProp? payload "linkedinUrl"
    if !(fields.any (fun f => f.1 == "linkedinUrl")) || !optTruthy linkedinUrlV then
      errResponse 400 "Missing linkedinUrl for profile analysis"
    else
      .analyzePipeline linkedinUrlV
  | .arr _ => errResponse 400 "Missing linkedinUrl for profile analysis"
  | _ => errResponse 500 "cannot use in operator on a primitive payload"

/-- The `fetch` handler of the middle revision up to the point where a
pipeline starts: GET `/health` and `/test` diagnostics, the CORS preflight,
the 405 guard, the environment-binding guards, body parsing, and mode
selection (`payload.mode ?? 'analyze'`). -/
def dispatch (env : Env) (req : HttpRequest) : Outcome :=
  if req.method = "GET" && req.path = "/health" then
    .response ⟨200, jsonCorsHeaders, some "health status ok"⟩
  else if req.method = "GET" && req.path = "/test" then
    .response ⟨200, jsonCorsHeaders, some "worker is responding"⟩
  else if req.method = "OPTIONS" then
    .response ⟨200, corsHeaders, none⟩
  else if req.method ≠ "POST" then
    .response ⟨405, corsHeaders, some "Method not allowed"⟩
  else if env.EXA_API_KEY = "" then
    errResponse 500 "EXA_API_KEY is not configured"
  else if !env.AI then
    errResponse 500 "AI binding is not configured"
  else
    match req.body with
    | none => errResponse 500 "request body is not valid JSON"
    | some payload =>
      match jsGet payload "mode" with
      | .error e => errResponse 500 (messageOf e)
      | .ok modeV =>
        let mode : Option Json :=
          match modeV with
          | none => some (.str "analyze")
          | some .null => some (.str "analyze")
          | some v => some v
        if mode = some (.str "match") then dispatchMatch payload
        else dispatchAnalyze payload

/-! ## Match Finder, synchronous Clado mode (`findMatchingProfiles`,
middle revision) -/

/-- A mapped Clado profile.  `url`/`title` are copied verbatim from the raw
result (possibly `undefined`); `snippet` is the assembled value (a string in
every non-degenerate case, but `profile.headline` is copied unconverted when
no role/location/description follows, hence `Json`). -/
structure CladoProfile where
  url : Option Json
  title : Option Json
  snippet : Json
deriving Repr, BEq, DecidableEq

/-- `criteria.pointsOfInterest.map(p => p.description).join(', ')`: a null
point throws a TypeError; `join` renders null/undefined descriptions as
empty strings. -/
def pointsDescription (pointsOfInterest : List Json) : Except JsError String := do
  let descriptions ← exceptMap (fun point => jsGet point "description") pointsOfInterest
  pure (String.intercalate ", " (descriptions.map jsJoinElem))

/-- The natural-language Clado query built by `findMatchingProfiles`. -/
def cladoQuery (careerGoal : String) (pointsOfInterest : List Json) :
    Except JsError String := do
  let pd ← pointsDescription pointsOfInterest
  pure (careerGoal ++ ". Looking for professionals with: " ++ pd)

/-- The per-result mapping of `findMatchingProfiles`: current role wins over
headline, then location and truncated description are appended, with the
`'LinkedIn Professional'` placeholder when everything was blank. -/
def mapCladoResult (result : Json) : Except JsError CladoProfile := do
  let profileV ← jsGet result "profile"
  let experienceV ← jsGet result "experience"
  let currentRole := jsIndex? experienceV 0
  let headlineV ← jsGetO profileV "headline"
  let snippet0 : Json := if optTruthy headlineV then headlineV.getD .null else .str ""
  let snippet1 : Json :=
    if optTruthy currentRole then
      .str (jsToStrO (jsField? currentRole "title") ++ " at " ++
        jsToStrO (jsField? currentRole "company_name"))
    else snippet0
  let locationV := jsField? profileV "location"
  let snippet2 : Json :=
    if optTruthy locationV then
      .str (jsToStr snippet1 ++ " • " ++ jsToStrO locationV)
    else snippet1
  let descriptionV := jsField? profileV "description"
  let snippet3 : Except JsError Json :=
    if optTruthy descriptionV then
      match descriptionV with
      | some (.str d) => .ok (.str (jsToStr snippet2 ++ " • " ++ jsTake d 150 ++ "..."))
      | _ => .error (.typeError "profile.description.substring is not a function")
    else .ok snippet2
  match snippet3 with
  | .error e => .error e
  | .ok snippet =>
    let urlV := jsField? profileV "linkedin_url"
    let nameV := jsField? profileV "name"
    pure { url := urlV, title := nameV,
           snippet := if snippet.truthy then snippet else .str "LinkedIn Professional" }

/-- The result processing of `findMatchingProfiles` after a 2xx Clado
response: `!data.results || data.results.length === 0` short-circuits to an
empty list; otherwise the first five results are mapped. -/
def processCladoResponse (data : Json) : Except JsError (List CladoProfile) := do
  let resultsV ← jsGet data "results"
  if !optTruthy resultsV || decide (jsField? resultsV "length" = some (Json.num 0)) then
    pure []
  else
    match resultsV with
    | some (.arr results) => exceptMap mapCladoResult (results.take 5)
    | _ => .error (.typeError "data.results.slice(0, 5).map is not a function")

/-- `findMatchingProfiles(criteria, careerGoal, apiKey)` (middle revision,
Clado backend): build the query, validate the API key, issue one
`fetchWithTimeout` GET (the oracle `searchOp`, addressed by the query), map
the status-specific error messages, then process the results. -/
def findMatchingProfiles (pointsOfInterest : List Json) (careerGoal : String)
    (apiKey : String) (searchOp : String → AsyncOutcome FetchReply) :
    Except JsError (List CladoProfile) := do
  let query ← cladoQuery careerGoal pointsOfInterest
  if apiKey = "" || jsTrim apiKey = "" then
    .error (.error "Clado API key is missing")
  else
    match fetchWithTimeout (searchOp query) CLADO_REQUEST_TIMEOUT_MS
        "Clado API request timed out" with
    | .error e => .error e
    | .ok response =>
      if !response.ok then
        if response.status == 401 then
          .error (.error "Clado API authentication failed. Please check your API key. Keys should start with \"lk_\"")
        else if response.status == 429 then
          .error (.error "Clado API rate limit exceeded. Please try again later")
        else
          .error (.error ("Clado API error (" ++ toString response.status ++ "): " ++
            response.textBody))
      else
        processCladoResponse response.jsonBody

/-- The analyze pipeline of the middle revision's `fetch` handler: the crawl
stage and the extraction stage, each rewrapping its failure message. -/
def runAnalyze (crawlOp : AsyncOutcome FetchReply) (aiOp : AsyncOutcome Json)
    (jsonParse : String → Option Json) : Except JsError (List Json) :=
  match crawlLinkedInProfile crawlOp with
  | .error e =>
    .error (.error ("Failed to crawl LinkedIn profile: " ++ messageOf e))
  | .ok _markdown =>
    match extractCriteria jsonParse aiOp with
    | .error e =>
      .error (.error ("Failed to extract career highlights: " ++ messageOf e))
    | .ok criteria => .ok criteria

/-! ## Match Finder, asynchronous webset mode
(`findMatchingProfiles` of `src/unnamed/part_001`)

The three webset calls (create, status poll, items) are issued with bare
`fetch` — no timeout wrapper — so each is an `AsyncOutcome` awaited by
`awaitRaw`: a call that never settles hangs the whole request (`none`). -/

/-- `maxAttempts` of the polling loop: 20 attempts * 3 seconds. -/
def maxAttempts : Nat := 20

/-- The 3000 ms inter-poll delay. -/
def pollIntervalMs : Nat := 3000

/-- `status !== 'idle'` on the loop variable (any non-`'idle'` JSON value,
or `undefined`, keeps the loop running). -/
def isIdleStatus (status : Option Json) : Bool :=
  decide (status = some (.str "idle"))

/-- The `statusData.searches?.[0]?.progress` chain of the loop body. -/
def progressOf (statusBody : Json) : Option Json :=
  jsField? (jsIndex? (getProp? statusBody "searches") 0) "progress"

/-- The `lastStatusData?.searches?.[0]?.progress?.found` chain. -/
def foundOf (lastStatusData : Option Json) : Option Json :=
  jsField? (jsField? (jsIndex? (jsField? lastStatusData "searches") 0) "progress") "found"

/-- One webset status poll outcome plus the loop bookkeeping, written with
explicit fuel.  The loop condition is `status !== 'idle' && attempts <
maxAttempts`; each iteration sleeps `pollIntervalMs`, fetches the status
(the reply to poll number `attempts`), throws on a non-2xx reply, reads
`lastStatusData.status`, increments `attempts`, and applies the early-exit
rule `attempts >= 15 && progress && progress.found >= 3`.  The entry point
passes `fuel = maxAttempts`, which the `attempts` guard makes exact: the
fuel-exhausted base case is reached only when `attempts` has hit
`maxAttempts`.  Result: final `status`, final `attempts` (= number of polls
made = number of sleeps taken), final `lastStatusData`. -/
def pollLoop (pollOps : Nat → AsyncOutcome FetchReply) (fuel : Nat) (status : Option Json)
    (attempts : Nat) (lastStatusData : Option Json) :
    Option (Except JsError (Option Json × Nat × Option Json)) :=
  match fuel with
  | 0 => some (.ok (status, attempts, lastStatusData))
  | fuel2 + 1 =>
    if isIdleStatus status || maxAttempts ≤ attempts then
      some (.ok (status, attempts, lastStatusData))
    else
      match awaitRaw (pollOps attempts) with
      | none => none
      | some statusResponse =>
        if !statusResponse.ok then
          some (.error (.error ("Failed to check webset status: " ++
            toString statusResponse.status)))
        else
          match jsGet statusResponse.jsonBody "status" with
          | .error e => some (.error e)
          | .ok newStatus =>
            let attempts2 := attempts + 1
            let progress := progressOf statusResponse.jsonBody
            if 15 ≤ attempts2 && optTruthy progress && jsGEnum (jsField? progress "found") 3 then
              some (.ok (newStatus, attempts2, some statusResponse.jsonBody))
            else
              pollLoop pollOps fuel2 newStatus attempts2 (some statusResponse.jsonBody)

/-- The post-loop guard: `status !== 'idle' && (!found || found === 0)`
throws the match timeout. -/
def matchTimeoutCond (status lastStatusData : Option Json) : Bool :=
  !isIdleStatus status &&
    (!optTruthy (foundOf lastStatusData) ||
      decide (foundOf lastStatusData = some (.num 0)))

/-- A mapped webset item: `url` verbatim, `title` and `snippet` with their
`||` defaults. -/
structure WebsetProfile where
  url : Option Json
  title : Option Json
  snippet : Option Json
deriving Repr, BEq, DecidableEq

def mapWebsetItem (item : Json) : Except JsError WebsetProfile := do
  let urlV ← jsGet item "url"
  let titleV ← jsGet item "title"
  let enrichmentsV ← jsGet item "enrichments"
  let valueV := jsField? (jsIndex? enrichmentsV 0) "value"
  pure { url := urlV,
         title := if optTruthy titleV then titleV else some (.str "LinkedIn Profile"),
         snippet := if optTruthy valueV then valueV else some (.str "Professional profile") }

/-- Step 3 of the webset match finder: fetch the items (bare fetch), guard
the status, then `itemsData.items.slice(0, 5).map(...)`. -/
def websetItemsPhase (itemsOp : AsyncOutcome FetchReply) :
    Option (Except JsError (List WebsetProfile)) :=
  match awaitRaw itemsOp with
  | none => none
  | some itemsResponse =>
    if !itemsResponse.ok then
      some (.error (.error ("Failed to get webset items: " ++
        toString itemsResponse.status ++ " - " ++ itemsResponse.textBody)))
    else
      some (do
        let itemsV ← jsGet itemsResponse.jsonBody "items"
        match itemsV with
        | some (.arr items) => exceptMap mapWebsetItem (items.take 5)
        | _ => .error (.typeError "itemsData.items.slice is not a function"))

/-- `findMatchingProfiles(criteria, careerGoal, apiKey)` of
`src/unnamed/part_001`: create the webset, poll it with `pollLoop`, throw
the match timeout when the loop ended non-idle with no found results, and
otherwise fetch and map the items.  `none` = the request hangs on a call
that never settles. -/
def websetFindMatchingProfiles (createOp : AsyncOutcome FetchReply)
    (pollOps : Nat → AsyncOutcome FetchReply) (itemsOp : AsyncOutcome FetchReply) :
    Option (Except JsError (List WebsetProfile)) :=
  match awaitRaw createOp with
  | none => none
  | some createResponse =>
    if !createResponse.ok then
      some (.error (.error ("Exa webset creation error: " ++
        toString createResponse.status ++ " - " ++ createResponse.textBody)))
    else
      match jsGet createResponse.jsonBody "id" with
      | .error e => some (.error e)
      | .ok _websetId =>
        match jsGet createResponse.jsonBody "status" with
        | .error e => some (.error e)
        | .ok status0 =>
          match pollLoop pollOps maxAttempts status0 0 none with
          | none => none
          | some (.error e) => some (.error e)
          | some (.ok (statusF, _attemptsF, lastF)) =>
            if matchTimeoutCond statusF lastF then
              some (.error (.error "Webset processing timed out without finding any results. Try a broader search query."))
            else
              websetItemsPhase itemsOp

/-! ## Helper lemmas -/

theorem strNeEmptyOfLengthPos {s : String} (h : 0 < s.length) : s ≠ "" := by
  intro hc
  subst hc
  exact absurd h (by decide)

theorem strNeEmptyOfTrimNe {s : String} (h : jsTrim s ≠ "") : s ≠ "" := by
  intro hc
  subst hc
  exact h (by decide)

theorem jsGetOfNeNull {p : Json} (h : p ≠ .null) (k : String) :
    jsGet p k = .ok (getProp? p k) := by
  cases p with
  | null => exact absurd rfl h
  | bool b => rfl
  | num n => rfl
  | str s => rfl
  | arr elems => rfl
  | obj fields => rfl

/-! ## C8 -/

/-- C8 counterexample: a `GET /health` request — whose method is neither POST
nor OPTIONS — is answered with a 200 diagnostic response by the middle
revision's dispatcher, not with HTTP 405 as the claim states. -/
theorem C8_counterexample :
    dispatch ⟨"k", true, "c"⟩ ⟨"GET", "/health", none⟩ =
      .response ⟨200, jsonCorsHeaders, some "health status ok"⟩ ∧
    dispatch ⟨"k", true, "c"⟩ ⟨"GET", "/health", none⟩ ≠
      .response ⟨405, corsHeaders, some "Method not allowed"⟩ :=
  ⟨rfl, by decide⟩

/-- C8 (amended): every request whose method is neither POST nor OPTIONS is
answered with HTTP 405, except a GET to the `/health` or `/test` diagnostic
paths, which is answered 200; an OPTIONS request is answered with the
permissive cross-origin headers. -/
theorem C8_amended (env : Env) (req : HttpRequest) :
    (req.method ≠ "POST" → req.method ≠ "OPTIONS" →
      (req.method = "GET" → req.path ≠ "/health" ∧ req.path ≠ "/test") →
      dispatch env req = .response ⟨405, corsHeaders, some "Method not allowed"⟩) ∧
    (req.method = "OPTIONS" →
      dispatch env req = .response ⟨200, corsHeaders, none⟩) := by
  constructor
  · intro hP hO hG
    unfold dispatch
    by_cases hg : req.method = "GET"
    · obtain ⟨h1, h2⟩ := hG hg
      simp [hg, h1, h2, hO, hP]
    · simp [hg, hO, hP]
  · intro hO
    have hg : req.method ≠ "GET" := by rw [hO]; decide
    unfold dispatch
    simp [hg, hO]

/-- C8 witness: the amended theorem applied to a DELETE request (405) and an
OPTIONS request (CORS preflight). -/
theorem C8_witness :
    dispatch ⟨"k", true, "c"⟩ ⟨"DELETE", "/", none⟩ =
      .response ⟨405, corsHeaders, some "Method not allowed"⟩ ∧
    dispatch ⟨"k", true, "c"⟩ ⟨"OPTIONS", "/", none⟩ =
      .response ⟨200, corsHeaders, none⟩ :=
  ⟨(C8_amended ⟨"k", true, "c"⟩ ⟨"DELETE", "/", none⟩).1 (by decide) (by decide)
      (fun h => absurd h (by decide)),
   (C8_amended ⟨"k", true, "c"⟩ ⟨"OPTIONS", "/", none⟩).2 rfl⟩

/-! ## C2 -/

theorem dispatchReachesMatch (env : Env) (req : HttpRequest) (payload : Json)
    (hmethod : req.method = "POST") (hbody : req.body = some payload)
    (hmode : jsGet payload "mode" = .ok (some (.str "match")))
    (hkey : env.EXA_API_KEY ≠ "") (hai : env.AI = true) :
    dispatch env req = dispatchMatch payload := by
  have h1 : req.method ≠ "GET" := by rw [hmethod]; decide
  have h2 : req.method ≠ "OPTIONS" := by rw [hmethod]; decide
  unfold dispatch
  simp [h1, h2, hmethod, hkey, hai, hbody, hmode]

/-- C2: a match-mode request (POST body with `mode: "match"` and a string
`careerGoal`, against a configured environment) whose `selectedPoints` is
absent, not an array, or of length other than exactly 3, is answered with an
HTTP 400 validation response, and the dispatcher outcome issues no external
network call. -/
theorem C2_match_validation_rejects (env : Env) (req : HttpRequest) (payload : Json)
    (goal : String)
    (hmethod : req.method = "POST") (hbody : req.body = some payload)
    (hmode : jsGet payload "mode" = .ok (some (.str "match")))
    (hgoal : getProp? payload "careerGoal" = some (.str goal))
    (hsp : getProp? payload "selectedPoints" = none ∨
           (∃ v, getProp? payload "selectedPoints" = some v ∧ ∀ l, v ≠ .arr l) ∨
           (∃ l, getProp? payload "selectedPoints" = some (.arr l) ∧
             l.length ≠ MAX_SELECTED_POINTS))
    (hkey : env.EXA_API_KEY ≠ "") (hai : env.AI = true) :
    (∃ msg, dispatch env req = errResponse 400 msg) ∧
    issuesExternalCall (dispatch env req) = false := by
  have hdisp := dispatchReachesMatch env req payload hmethod hbody hmode hkey hai
  have key : ∃ msg, dispatchMatch payload = errResponse 400 msg := by
    unfold dispatchMatch
    rw [hgoal]
    by_cases hg0 : goal = ""
    · subst hg0
      exact ⟨"Missing career goal for match request", by simp [optTruthy, Json.truthy]⟩
    · have htr : optTruthy (some (Json.str goal)) = true := by
        simp [optTruthy, Json.truthy, hg0]
      simp only [htr, Bool.not_true, Bool.false_eq_true, if_false]
      by_cases hgt : jsTrim goal = ""
      · exact ⟨"Missing career goal for match request", by simp [hgt]⟩
      · simp only [hgt, if_false]
        rcases hsp with hnone | ⟨v, hv, hvarr⟩ | ⟨l, hl, hlen⟩
        · rw [hnone]
          exact ⟨"Please provide up to 3 selected experiences", rfl⟩
        · rw [hv]
          cases v with
          | arr l => exact absurd rfl (hvarr l)
          | null => exact ⟨"Please provide up to 3 selected experiences", rfl⟩
          | bool b => exact ⟨"Please provide up to 3 selected experiences", rfl⟩
          | num n => exact ⟨"Please provide up to 3 selected experiences", rfl⟩
          | str s => exact ⟨"Please provide up to 3 selected experiences", rfl⟩
          | obj fs => exact ⟨"Please provide up to 3 selected experiences", rfl⟩
        · rw [hl]
          by_cases hemp : l.isEmpty
          · exact ⟨"Please provide up to 3 selected experiences", by simp [hemp]⟩
          · exact ⟨"Exactly 3 experiences are required to find matches", by simp [hemp, hlen]⟩
  obtain ⟨msg, hmsg⟩ := key
  rw [hdisp, hmsg]
  exact ⟨⟨msg, rfl⟩, rfl⟩

/-- C2 witness: the theorem applied to a concrete match request carrying a
single selected point. -/
theorem C2_witness :
    (∃ msg,
      dispatch ⟨"exa", true, "lk"⟩
        ⟨"POST", "/", some (.obj [("mode", .str "match"), ("careerGoal", .str "CEO"),
          ("selectedPoints", .arr [.null])])⟩ = errResponse 400 msg) ∧
    issuesExternalCall
      (dispatch ⟨"exa", true, "lk"⟩
        ⟨"POST", "/", some (.obj [("mode", .str "match"), ("careerGoal", .str "CEO"),
          ("selectedPoints", .arr [.null])])⟩) = false :=
  C2_match_validation_rejects ⟨"exa", true, "lk"⟩
    ⟨"POST", "/", some (.obj [("mode", .str "match"), ("careerGoal", .str "CEO"),
      ("selectedPoints", .arr [.null])])⟩
    (.obj [("mode", .str "match"), ("careerGoal", .str "CEO"),
      ("selectedPoints", .arr [.null])])
    "CEO" rfl rfl rfl rfl
    (Or.inr (Or.inr ⟨[.null], rfl, by decide⟩))
    (by decide) rfl

/-! ## C10 -/

/-- C10: in match mode the dispatcher checks only the count of
`selectedPoints` and the non-blankness of `careerGoal`; three arbitrary
object points — empty descriptions and arbitrary `type` values included —
pass validation unchanged into the match pipeline, and their description
strings are forwarded verbatim into the Clado search query. -/
theorem C10_match_forwards_verbatim (env : Env) (req : HttpRequest) (payload : Json)
    (goal : String) (p1 p2 p3 : Json) (d1 d2 d3 : String)
    (hmethod : req.method = "POST") (hbody : req.body = some payload)
    (hmode : jsGet payload "mode" = .ok (some (.str "match")))
    (hgoal : getProp? payload "careerGoal" = some (.str goal))
    (hgoalt : jsTrim goal ≠ "")
    (hsp : getProp? payload "selectedPoints" = some (.arr [p1, p2, p3]))
    (hd1 : jsGet p1 "description" = .ok (some (.str d1)))
    (hd2 : jsGet p2 "description" = .ok (some (.str d2)))
    (hd3 : jsGet p3 "description" = .ok (some (.str d3)))
    (hkey : env.EXA_API_KEY ≠ "") (hai : env.AI = true) :
    dispatch env req = .matchPipeline goal [p1, p2, p3] ∧
    cladoQuery goal [p1, p2, p3] =
      .ok (goal ++ ". Looking for professionals with: " ++
        String.intercalate ", " [d1, d2, d3]) := by
  have hg0 : goal ≠ "" := strNeEmptyOfTrimNe hgoalt
  constructor
  · rw [dispatchReachesMatch env req payload hmethod hbody hmode hkey hai]
    unfold dispatchMatch
    rw [hgoal, hsp]
    have htr : optTruthy (some (Json.str goal)) = true := by
      simp [optTruthy, Json.truthy, hg0]
    simp [htr, hgoalt, MAX_SELECTED_POINTS]
  · unfold cladoQuery pointsDescription
    simp [exceptMap, hd1, hd2, hd3, jsJoinElem, jsToStr]

/-- C10 witness: the theorem applied to three concrete points with an empty
description, a whitespace description, and a numeric `type`. -/
theorem C10_witness :
    dispatch ⟨"exa", true, "lk"⟩
      ⟨"POST", "/", some (.obj [("mode", .str "match"), ("careerGoal", .str "CEO"),
        ("selectedPoints", .arr
          [.obj [("description", .str ""), ("type", .num 7)],
           .obj [("description", .str " ")],
           .obj [("description", .str "dropped out"), ("type", .str "zzz")]])])⟩ =
      .matchPipeline "CEO"
        [.obj [("description", .str ""), ("type", .num 7)],
         .obj [("description", .str " ")],
         .obj [("description", .str "dropped out"), ("type", .str "zzz")]] ∧
    cladoQuery "CEO"
      [.obj [("description", .str ""), ("type", .num 7)],
       .obj [("description", .str " ")],
       .obj [("description", .str "dropped out"), ("type", .str "zzz")]] =
      .ok ("CEO" ++ ". Looking for professionals with: " ++
        String.intercalate ", " ["", " ", "dropped out"]) :=
  C10_match_forwards_verbatim ⟨"exa", true, "lk"⟩
    ⟨"POST", "/", some (.obj [("mode", .str "match"), ("careerGoal", .str "CEO"),
      ("selectedPoints", .arr
        [.obj [("description", .str ""), ("type", .num 7)],
         .obj [("description", .str " ")],
         .obj [("description", .str "dropped out"), ("type", .str "zzz")]])])⟩
    (.obj [("mode", .str "match"), ("careerGoal", .str "CEO"),
      ("selectedPoints", .arr
        [.obj [("description", .str ""), ("type", .num 7)],
         .obj [("description", .str " ")],
         .obj [("description", .str "dropped out"), ("type", .str "zzz")]])])
    "CEO"
    (.obj [("description", .str ""), ("type", .num 7)])
    (.obj [("description", .str " ")])
    (.obj [("description", .str "dropped out"), ("type", .str "zzz")])
    "" " " "dropped out"
    rfl rfl rfl rfl (by decide) rfl rfl rfl rfl (by decide) rfl

/-! ## C1 -/

theorem isValidPoint_description {p : Json} (h : isValidPoint p = true) :
    ∃ d, getProp? p "description" = some (.str d) ∧ d ≠ "" ∧ jsTrim d ≠ "" := by
  unfold isValidPoint at h
  simp only [Bool.and_eq_true] at h
  obtain ⟨⟨⟨_, _⟩, hdesc⟩, _⟩ := h
  cases hd : getProp? p "description" with
  | none => rw [hd] at hdesc; cases hdesc
  | some v =>
    rw [hd] at hdesc
    cases v with
    | str d =>
      simp only [Bool.and_eq_true, decide_eq_true_eq] at hdesc
      obtain ⟨hne, hlen⟩ := hdesc
      refine ⟨d, rfl, hne, strNeEmptyOfLengthPos ?_⟩
      simpa using hlen
    | null => cases hdesc
    | bool b => cases hdesc
    | num n => cases hdesc
    | arr l => cases hdesc
    | obj fs => cases hdesc

theorem extractCriteriaCore_ok {jsonParse : String → Option Json} {aiResponse : Json}
    {points : List Json} (h : extractCriteriaCore jsonParse aiResponse = .ok points) :
    ∃ pts : List Json, points = (List.filter isValidPoint pts).take MAX_POINTS_OF_INTEREST ∧
      List.filter isValidPoint pts ≠ [] := by
  unfold extractCriteriaCore at h
  split at h
  · cases h
  · split at h
    · cases h
    · rename_i pts hpts
      split at h
      · cases h
      · rename_i hne
        refine ⟨pts, ?_, ?_⟩
        · cases h; rfl
        · intro hc
          exact hne (by simp [hc])

/-- C1: whenever `extractCriteria` succeeds, the returned points of interest
number between 1 and `MAX_POINTS_OF_INTEREST` (10) inclusive, and every
returned entry carries a non-empty (even after trimming) string description —
entries failing validation were filtered out, zero survivors is an error, and
the survivors are the first 10 in response order. -/
theorem C1_extract_criteria_bounds (jsonParse : String → Option Json)
    (aiOp : AsyncOutcome Json) (points : List Json)
    (h : extractCriteria jsonParse aiOp = .ok points) :
    1 ≤ points.length ∧ points.length ≤ MAX_POINTS_OF_INTEREST ∧
    ∀ p ∈ points, ∃ d, getProp? p "description" = some (.str d) ∧ d ≠ "" ∧ jsTrim d ≠ "" := by
  have hcore : ∃ aiResponse, extractCriteriaCore jsonParse aiResponse = .ok points := by
    unfold extractCriteria extractCriteriaTry at h
    cases hw : withTimeout aiOp AI_REQUEST_TIMEOUT_MS "Workers AI request timed out" with
    | error e => rw [hw] at h; simp at h
    | ok aiResponse =>
      rw [hw] at h
      dsimp only at h
      cases hc : extractCriteriaCore jsonParse aiResponse with
      | error e => rw [hc] at h; simp at h
      | ok pts0 =>
        rw [hc] at h
        simp only [Except.ok.injEq] at h
        exact ⟨aiResponse, by rw [hc, h]⟩
  obtain ⟨aiResponse, hc⟩ := hcore
  obtain ⟨pts, hpts, hne⟩ := extractCriteriaCore_ok hc
  subst hpts
  have hlenpos : 0 < (pts.filter isValidPoint).length := List.length_pos.mpr hne
  refine ⟨?_, ?_, ?_⟩
  · rw [List.length_take]
    unfold MAX_POINTS_OF_INTEREST
    omega
  · rw [List.length_take]
    omega
  · intro p hp
    have hmem : p ∈ pts.filter isValidPoint := List.mem_of_mem_take hp
    exact isValidPoint_description (List.mem_filter.mp hmem).2

/-- C1 witness: the theorem applied to a concrete run in which the model
answered a two-entry JSON array with one invalid entry. -/
theorem C1_witness :
    1 ≤ [Json.obj [("description", .str "Studied at Stanford"), ("type", .str "education")]].length ∧
    [Json.obj [("description", .str "Studied at Stanford"), ("type", .str "education")]].length ≤
      MAX_POINTS_OF_INTEREST ∧
    ∀ p ∈ [Json.obj [("description", .str "Studied at Stanford"), ("type", .str "education")]],
      ∃ d, getProp? p "description" = some (.str d) ∧ d ≠ "" ∧ jsTrim d ≠ "" :=
  C1_extract_criteria_bounds
    (fun s =>
      if s = "[\x7b\"description\":\"Studied at Stanford\",\"type\":\"education\"\x7d,\x7b\"description\":\"\",\"type\":\"skill\"\x7d]" then
        some (.arr [.obj [("description", .str "Studied at Stanford"), ("type", .str "education")],
                    .obj [("description", .str ""), ("type", .str "skill")]])
      else none)
    (.completesAt 5 (.obj [("response",
      .str "[\x7b\"description\":\"Studied at Stanford\",\"type\":\"education\"\x7d,\x7b\"description\":\"\",\"type\":\"skill\"\x7d]")]))
    [Json.obj [("description", .str "Studied at Stanford"), ("type", .str "education")]]
    rfl

/-! ## C9 -/

/-- C9: a match-mode request carrying exactly 3 non-null selected points and
a non-blank goal, run against a search service replying 200 with
`total: 0, results: []`, reaches the match pipeline and returns an empty
profile list without any error. -/
theorem C9_zero_results (env : Env) (req : HttpRequest) (payload : Json) (goal : String)
    (p1 p2 p3 : Json) (apiKey : String) (searchOp : String → AsyncOutcome FetchReply)
    (sid raw : String) (t : Nat)
    (hmethod : req.method = "POST") (hbody : req.body = some payload)
    (hmode : jsGet payload "mode" = .ok (some (.str "match")))
    (hgoal : getProp? payload "careerGoal" = some (.str goal))
    (hgoalt : jsTrim goal ≠ "")
    (hsp : getProp? payload "selectedPoints" = some (.arr [p1, p2, p3]))
    (hp1 : p1 ≠ .null) (hp2 : p2 ≠ .null) (hp3 : p3 ≠ .null)
    (hkeyA : apiKey ≠ "") (hkeyB : jsTrim apiKey ≠ "")
    (hop : ∀ q, searchOp q = .completesAt t
      ⟨true, 200, .obj [("results", .arr []), ("total", .num 0), ("search_id", .str sid)], raw⟩)
    (ht : t < CLADO_REQUEST_TIMEOUT_MS)
    (hkey : env.EXA_API_KEY ≠ "") (hai : env.AI = true) :
    dispatch env req = .matchPipeline goal [p1, p2, p3] ∧
    findMatchingProfiles [p1, p2, p3] goal apiKey searchOp = .ok [] := by
  have hg0 : goal ≠ "" := strNeEmptyOfTrimNe hgoalt
  constructor
  · rw [dispatchReachesMatch env req payload hmethod hbody hmode hkey hai]
    unfold dispatchMatch
    rw [hgoal, hsp]
    have htr : optTruthy (some (Json.str goal)) = true := by
      simp [optTruthy, Json.truthy, hg0]
    simp [htr, hgoalt, MAX_SELECTED_POINTS]
  · unfold findMatchingProfiles cladoQuery pointsDescription
    simp [exceptMap, jsGetOfNeNull hp1, jsGetOfNeNull hp2, jsGetOfNeNull hp3,
      hkeyA, hkeyB, hop, ht, fetchWithTimeout, processCladoResponse, jsGet,
      optTruthy, Json.truthy, jsField?, getProp?, Bind.bind, Except.bind,
      Pure.pure, Except.pure]

/-- C9 witness: the theorem applied to a concrete request with the goal
`"CEO at a tech company"` and a canned empty search reply. -/
theorem C9_witness :
    dispatch ⟨"exa", true, "lk"⟩
      ⟨"POST", "/", some (.obj [("mode", .str "match"),
        ("careerGoal", .str "CEO at a tech company"),
        ("selectedPoints", .arr
          [.obj [("description", .str "a")], .obj [("description", .str "b")],
           .obj [("description", .str "c")]])])⟩ =
      .matchPipeline "CEO at a tech company"
        [.obj [("description", .str "a")], .obj [("description", .str "b")],
         .obj [("description", .str "c")]] ∧
    findMatchingProfiles
      [.obj [("description", .str "a")], .obj [("description", .str "b")],
       .obj [("description", .str "c")]]
      "CEO at a tech company" "lk_test"
      (fun _ => .completesAt 40
        ⟨true, 200, .obj [("results", .arr []), ("total", .num 0),
          ("search_id", .str "s1")], "raw"⟩) = .ok [] :=
  C9_zero_results ⟨"exa", true, "lk"⟩
    ⟨"POST", "/", some (.obj [("mode", .str "match"),
      ("careerGoal", .str "CEO at a tech company"),
      ("selectedPoints", .arr
        [.obj [("description", .str "a")], .obj [("description", .str "b")],
         .obj [("description", .str "c")]])])⟩
    (.obj [("mode", .str "match"), ("careerGoal", .str "CEO at a tech company"),
      ("selectedPoints", .arr
        [.obj [("description", .str "a")], .obj [("description", .str "b")],
         .obj [("description", .str "c")]])])
    "CEO at a tech company"
    (.obj [("description", .str "a")]) (.obj [("description", .str "b")])
    (.obj [("description", .str "c")])
    "lk_test"
    (fun _ => .completesAt 40
      ⟨true, 200, .obj [("results", .arr []), ("total", .num 0),
        ("search_id", .str "s1")], "raw"⟩)
    "s1" "raw" 40
    rfl rfl rfl rfl (by decide) rfl (by decide) (by decide) (by decide)
    (by decide) (by decide) (fun _ => rfl) (by decide) (by decide) rfl

/-! ## C6 -/

/-- A well-typed crawl-service result, per the collaborator contract
`{id, title?, url?, text?, summary?}` (only the fields the extraction
reads). -/
structure CrawlResult where
  title : Option String
  text : Option String
  summary : Option String

def optStrField (k : String) : Option String → List (String × Json)
  | none => []
  | some s => [(k, .str s)]

def crawlResultJson (r : CrawlResult) : Json :=
  .obj (optStrField "title" r.title ++ optStrField "text" r.text ++
    optStrField "summary" r.summary)

/-- A well-typed crawl response `{context?, results?}`. -/
def crawlDataJson (context : Option String) (results : Option (List CrawlResult)) : Json :=
  .obj (optStrField "context" context ++
    (match results with
     | none => []
     | some rs => [("results", .arr (rs.map crawlResultJson))]))

/-- What the claim's strategy 3 produces for one result: title, text and
summary, skipping absent and empty parts, joined by newlines. -/
def joinedParts (r : CrawlResult) : String :=
  String.intercalate "\n"
    ((r.title.toList ++ r.text.toList ++ r.summary.toList).filter (fun s => s ≠ ""))

/-- What the claim's strategy 3 produces overall: every result's joined
parts, skipping blank ones, joined by blank lines. -/
def concatAllResults (rs : List CrawlResult) : String :=
  String.intercalate "\n\n" ((rs.map joinedParts).filter (fun t => (jsTrim t).length > 0))

/-- Strategy 1 of the claim: a non-blank `context`. -/
def contextYields (context : Option String) : Option String :=
  match context with
  | some c => if 0 < (jsTrim c).length then some c else none
  | none => none

/-- Strategy 2 of the claim: a non-blank `results[0].text`. -/
def firstTextYields (results : Option (List CrawlResult)) : Option String :=
  match results with
  | some (r :: _) =>
    match r.text with
    | some t => if 0 < (jsTrim t).length then some t else none
    | none => none
  | _ => none

/-- Strategy 3 of the claim: the non-blank concatenation of a non-empty
results list. -/
def concatYields (results : Option (List CrawlResult)) : Option String :=
  match results with
  | some rs =>
    if 0 < rs.length then
      if 0 < (jsTrim (concatAllResults rs)).length then some (concatAllResults rs)
      else none
    else none
  | none => none

theorem crawlDataJson_context (context : Option String) (results : Option (List CrawlResult)) :
    getProp? (crawlDataJson context results) "context" = context.map Json.str := by
  cases context <;> cases results <;> simp [crawlDataJson, optStrField, getProp?]

theorem crawlDataJson_results (context : Option String) (results : Option (List CrawlResult)) :
    getProp? (crawlDataJson context results) "results" =
      results.map (fun rs => Json.arr (rs.map crawlResultJson)) := by
  cases context <;> cases results <;> simp [crawlDataJson, optStrField, getProp?]

theorem crawlResultJson_title (r : CrawlResult) :
    getProp? (crawlResultJson r) "title" = r.title.map Json.str := by
  rcases r with ⟨t, x, u⟩
  cases t <;> cases x <;> cases u <;> simp [crawlResultJson, optStrField, getProp?]

theorem crawlResultJson_text (r : CrawlResult) :
    getProp? (crawlResultJson r) "text" = r.text.map Json.str := by
  rcases r with ⟨t, x, u⟩
  cases t <;> cases x <;> cases u <;> simp [crawlResultJson, optStrField, getProp?]

theorem crawlResultJson_summary (r : CrawlResult) :
    getProp? (crawlResultJson r) "summary" = r.summary.map Json.str := by
  rcases r with ⟨t, x, u⟩
  cases t <;> cases x <;> cases u <;> simp [crawlResultJson, optStrField, getProp?]

theorem partOfOptStr (o : Option String) :
    (if optTruthy (o.map Json.str) then [jsJoinElem (o.map Json.str)] else []) =
      o.toList.filter (fun s => s ≠ "") := by
  cases o with
  | none => simp [optTruthy]
  | some s =>
    by_cases hs : s = "" <;> simp [optTruthy, Json.truthy, jsJoinElem, jsToStr, hs]

theorem crawlJoinOne_typed (r : CrawlResult) :
    crawlJoinOne (crawlResultJson r) = .ok (joinedParts r) := by
  unfold crawlJoinOne
  have hobj : crawlResultJson r ≠ .null := by simp [crawlResultJson]
  rw [jsGetOfNeNull hobj, jsGetOfNeNull hobj, jsGetOfNeNull hobj,
    crawlResultJson_title, crawlResultJson_text, crawlResultJson_summary]
  simp only [Bind.bind, Except.bind, partOfOptStr]
  simp [joinedParts, List.filter_append, Pure.pure, Except.pure]

theorem exceptMap_crawlJoinOne (rs : List CrawlResult) :
    exceptMap crawlJoinOne (rs.map crawlResultJson) = .ok (rs.map joinedParts) := by
  induction rs with
  | nil => simp [exceptMap]
  | cons r rest ih => simp [exceptMap, crawlJoinOne_typed, ih]

theorem crawlConcatResults_typed (rs : List CrawlResult) :
    crawlConcatResults (rs.map crawlResultJson) = .ok (concatAllResults rs) := by
  unfold crawlConcatResults
  rw [exceptMap_crawlJoinOne]
  simp [concatAllResults, Bind.bind, Except.bind, Pure.pure, Except.pure]


theorem contextYields_some {context : Option String} {c : String}
    (h : contextYields context = some c) :
    context = some c ∧ 0 < (jsTrim c).length := by
  cases context with
  | none => cases h
  | some c0 =>
    have hdef : contextYields (some c0) =
        if 0 < (jsTrim c0).length then some c0 else none := rfl
    rw [hdef] at h
    by_cases hc : 0 < (jsTrim c0).length
    · rw [if_pos hc] at h
      cases h
      exact ⟨rfl, hc⟩
    · rw [if_neg hc] at h
      cases h

theorem firstTextYields_some {results : Option (List CrawlResult)} {t : String}
    (h : firstTextYields results = some t) : 0 < (jsTrim t).length := by
  cases results with
  | none => cases h
  | some rs =>
    cases rs with
    | nil => cases h
    | cons r rest =>
      have hdef : firstTextYields (some (r :: rest)) =
          match r.text with
          | some t0 => if 0 < (jsTrim t0).length then some t0 else none
          | none => none := rfl
      rw [hdef] at h
      cases hx : r.text with
      | none => rw [hx] at h; cases h
      | some t0 =>
        rw [hx] at h
        dsimp only at h
        by_cases htr : 0 < (jsTrim t0).length
        · rw [if_pos htr] at h
          cases h
          exact htr
        · rw [if_neg htr] at h
          cases h

theorem jsField?_crawlResult_text (r : CrawlResult) :
    jsField? (some (crawlResultJson r)) "text" = r.text.map Json.str := by
  rcases r with ⟨t, x, u⟩
  cases t <;> cases x <;> cases u <;>
    simp [jsField?, crawlResultJson, optStrField, getProp?]

theorem jsIndex?_arr_cons (x : Json) (xs : List Json) :
    jsIndex? (some (.arr (x :: xs))) 0 = some x := rfl

theorem jsField?_arr_length (l : List Json) :
    jsField? (some (.arr l)) "length" = some (.num l.length) := by
  simp [jsField?, getProp?]

theorem jsIndex?_arr_nil : jsIndex? (some (.arr ([] : List Json))) 0 = none := rfl

theorem crawlStep23_typed (context : Option String) (results : Option (List CrawlResult)) :
    crawlStep23 (crawlDataJson context results) =
      .ok (match firstTextYields results with
           | some t => some t
           | none =>
             match results with
             | some rs => if 0 < rs.length then some (concatAllResults rs) else none
             | none => none) := by
  have hnn : crawlDataJson context results ≠ .null := by simp [crawlDataJson]
  unfold crawlStep23
  rw [jsGetOfNeNull hnn, crawlDataJson_results]
  cases results with
  | none =>
    simp [firstTextYields, optTruthy, jsField?, jsIndex?, Bind.bind, Except.bind,
      Pure.pure, Except.pure]
  | some rs =>
    cases rs with
    | nil =>
      simp [firstTextYields, jsIndex?_arr_nil, jsField?, jsField?_arr_length, getProp?,
        optTruthy, Json.truthy, jsGEnum, jsToNumber, Bind.bind, Except.bind,
        Pure.pure, Except.pure]
    | cons r rest =>
      have hlen : jsGEnum (jsField? (some (Json.arr
          (crawlResultJson r :: rest.map crawlResultJson))) "length") 1 = true := by
        rw [jsField?_arr_length]
        simp [jsGEnum, jsToNumber]
      have hidx : jsIndex? (some (Json.arr
          (crawlResultJson r :: rest.map crawlResultJson))) 0 =
          some (crawlResultJson r) := jsIndex?_arr_cons _ _
      have hcc : crawlConcatResults (crawlResultJson r :: rest.map crawlResultJson) =
          .ok (concatAllResults (r :: rest)) := by
        simpa using crawlConcatResults_typed (r :: rest)
      cases hx : r.text with
      | none =>
        simp [firstTextYields, hx, hidx, jsField?_crawlResult_text, hlen, hcc,
          optTruthy, Json.truthy, Bind.bind, Except.bind, Pure.pure, Except.pure]
      | some t =>
        by_cases ht0 : t = ""
        · subst ht0
          simp [firstTextYields, hx, hidx, jsField?_crawlResult_text, hlen, hcc,
            optTruthy, Json.truthy, Bind.bind, Except.bind, Pure.pure, Except.pure,
            show (jsTrim "").length = 0 from rfl]
        · by_cases htr : 0 < (jsTrim t).length
          · simp [firstTextYields, hx, hidx, jsField?_crawlResult_text, ht0, htr,
              optTruthy, Json.truthy, Bind.bind, Except.bind, Pure.pure, Except.pure]
          · simp [firstTextYields, hx, hidx, jsField?_crawlResult_text, ht0, htr, hlen,
              hcc, optTruthy, Json.truthy, Bind.bind, Except.bind, Pure.pure, Except.pure]

theorem crawlPrimaryText_typed (context : Option String)
    (results : Option (List CrawlResult)) :
    crawlPrimaryText (crawlDataJson context results) =
      .ok (match contextYields context with
           | some c => some c
           | none =>
             match firstTextYields results with
             | some t => some t
             | none =>
               match results with
               | some rs => if 0 < rs.length then some (concatAllResults rs) else none
               | none => none) := by
  have hnn : crawlDataJson context results ≠ .null := by simp [crawlDataJson]
  unfold crawlPrimaryText
  rw [jsGetOfNeNull hnn, crawlDataJson_context]
  cases context with
  | none =>
    rw [crawlStep23_typed none results]
    simp [contextYields, optTruthy, Bind.bind, Except.bind]
  | some c =>
    by_cases hc0 : c = ""
    · subst hc0
      rw [crawlStep23_typed (some "") results]
      simp [contextYields, optTruthy, Json.truthy, Bind.bind, Except.bind,
        show jsTrim "" = "" from rfl]
    · by_cases htr : 0 < (jsTrim c).length
      · simp [contextYields, optTruthy, Json.truthy, hc0, htr, Bind.bind, Except.bind,
          Pure.pure, Except.pure]
      · rw [crawlStep23_typed (some c) results]
        simp [contextYields, optTruthy, Json.truthy, hc0, htr, Bind.bind, Except.bind]

/-- C6: crawl response text extraction follows the deterministic priority
order context → first result text → joined concatenation of all results'
title/text/summary (skipping empty parts), and when all three yield nothing
it fails with the crawl error naming the response's top-level keys, for
every well-typed crawl response shape. -/
theorem C6_crawl_extraction_priority (context : Option String)
    (results : Option (List CrawlResult)) :
    crawlExtractText (crawlDataJson context results) =
      match contextYields context with
      | some c => .ok c
      | none =>
        match firstTextYields results with
        | some t => .ok t
        | none =>
          match concatYields results with
          | some j => .ok j
          | none =>
            .error (.error
              ("Failed to crawl LinkedIn profile: No text content returned. Response structure: " ++
               stringifyKeys (jsKeys (crawlDataJson context results)))) := by
  unfold crawlExtractText
  rw [crawlPrimaryText_typed]
  simp only [Bind.bind, Except.bind]
  cases hcy : contextYields context with
  | some c =>
    obtain ⟨-, hlen⟩ := contextYields_some hcy
    have hne : c ≠ "" := strNeEmptyOfTrimNe (strNeEmptyOfLengthPos hlen)
    simp [hne, Nat.pos_iff_ne_zero.mp hlen, Pure.pure, Except.pure]
  | none =>
    cases hft : firstTextYields results with
    | some t =>
      have hlen := firstTextYields_some hft
      have hne : t ≠ "" := strNeEmptyOfTrimNe (strNeEmptyOfLengthPos hlen)
      simp [hne, Nat.pos_iff_ne_zero.mp hlen, Pure.pure, Except.pure]
    | none =>
      cases results with
      | none => simp [concatYields]
      | some rs =>
        by_cases hrs : 0 < rs.length
        · by_cases hj : 0 < (jsTrim (concatAllResults rs)).length
          · have hne : concatAllResults rs ≠ "" :=
              strNeEmptyOfTrimNe (strNeEmptyOfLengthPos hj)
            simp [concatYields, hrs, hj, hne, Nat.pos_iff_ne_zero.mp hj,
              Pure.pure, Except.pure]
          · have hz : (jsTrim (concatAllResults rs)).length = 0 := by omega
            simp [concatYields, hrs, hj, hz]
        · simp [concatYields, hrs]

/-! ## C7 -/

def cexFencedArr : String :=
  "[\x7b\"description\":\"Studied at Stanford\",\"type\":\"education\"\x7d]"

def cexPoint : Json :=
  .obj [("description", .str "Studied at Stanford"), ("type", .str "education")]

/-- `JSON.parse` restricted to the three strings the counterexample run
queries, agreeing with real `JSON.parse` on each: the whole response throws
(prose), `"[1]"` parses to the one-element number array, and the fenced
substring parses to the points array. -/
def cexParse : String → Option Json := fun s =>
  if s = "[1]" then some (.arr [.num 1])
  else if s = cexFencedArr then some (.arr [cexPoint])
  else none

def cexText : String := "Scores [1] noted\n```json\n" ++ cexFencedArr ++ "\n```"

/-- C7 counterexample: a response text that fails whole-text parsing and
contains a markdown fence wrapping a valid points array, yet the fallback
chain yields `[1]` — the earlier bracketed substring — instead of the fenced
points: the bracket-regex stage runs before the fence stage. -/
theorem C7_counterexample :
    cexParse cexText = none ∧
    codeBlockCapture cexText = some cexFencedArr ∧
    cexParse cexFencedArr = some (.arr [cexPoint]) ∧
    extractPointsArray cexParse cexText = some [Json.num 1] ∧
    ([Json.num 1] : List Json) ≠ [cexPoint] :=
  ⟨rfl, rfl, rfl, rfl, by decide⟩

/-- C7 (amended): when the whole response fails to parse as JSON AND the
first lazily-bracketed substring yields no non-empty array (no match,
unparsable, or not a non-empty array), a markdown code fence wrapping a
valid non-empty JSON array parses successfully and its points are returned;
a parseable bracketed substring occurring earlier in the text wins over the
fenced array. -/
theorem C7_amended (jsonParse : String → Option Json) (responseText cap : String)
    (pts : List Json)
    (hwhole : jsonParse responseText = none)
    (hbracket : ∀ sub, firstBracketMatch responseText = some sub →
      jsonParse sub = none ∨ ∃ v, jsonParse sub = some v ∧ needsFallback v = true)
    (hfence : codeBlockCapture responseText = some cap)
    (hcap : jsonParse cap = some (.arr pts))
    (hne : pts ≠ []) :
    extractPointsArray jsonParse responseText = some pts := by
  cases pts with
  | nil => exact absurd rfl hne
  | cons p ps =>
    unfold extractPointsArray
    rw [hwhole]
    cases hbm : firstBracketMatch responseText with
    | none => simp [needsFallback, hfence, hcap]
    | some sub =>
      rcases hbracket sub hbm with hnone | ⟨v, hv, hnf⟩
      · simp [hnone, needsFallback, hfence, hcap]
      · simp [hv, hnf, hfence, hcap]

/-- C7 witness: the amended theorem applied to a response whose earlier
bracketed substring `[a]` is unparsable, so the fenced array wins. -/
theorem C7_witness :
    extractPointsArray
      (fun s => if s = "[\x7b\"description\":\"X\",\"type\":\"t\"\x7d]" then
        some (.arr [.obj [("description", .str "X"), ("type", .str "t")]]) else none)
      ("See [a] then\n```json\n[\x7b\"description\":\"X\",\"type\":\"t\"\x7d]\n```") =
      some [.obj [("description", .str "X"), ("type", .str "t")]] :=
  C7_amended
    (fun s => if s = "[\x7b\"description\":\"X\",\"type\":\"t\"\x7d]" then
      some (.arr [.obj [("description", .str "X"), ("type", .str "t")]]) else none)
    ("See [a] then\n```json\n[\x7b\"description\":\"X\",\"type\":\"t\"\x7d]\n```")
    "[\x7b\"description\":\"X\",\"type\":\"t\"\x7d]"
    [.obj [("description", .str "X"), ("type", .str "t")]]
    rfl
    (fun sub hsub => by
      have h : "[a]" = sub := Option.some.inj hsub
      cases h
      exact Or.inl rfl)
    rfl rfl (by decide)

/-! ## C3 -/

theorem pollLoop_attempts_le (pollOps : Nat → AsyncOutcome FetchReply) :
    ∀ fuel status attempts lastStatusData statusF attemptsF lastF,
      pollLoop pollOps fuel status attempts lastStatusData =
        some (.ok (statusF, attemptsF, lastF)) →
      attemptsF ≤ attempts + fuel := by
  intro fuel
  induction fuel with
  | zero =>
    intro status attempts last sF aF lF h
    unfold pollLoop at h
    simp only [Option.some.injEq, Except.ok.injEq, Prod.mk.injEq] at h
    omega
  | succ fuel ih =>
    intro status attempts last sF aF lF h
    unfold pollLoop at h
    split at h
    · simp only [Option.some.injEq, Except.ok.injEq, Prod.mk.injEq] at h
      omega
    · split at h
      · cases h
      · split at h
        · simp at h
        · split at h
          · simp at h
          · dsimp only at h
            split at h
            · simp only [Option.some.injEq, Except.ok.injEq, Prod.mk.injEq] at h
              omega
            · have := ih _ _ _ _ _ _ h
              omega

theorem pollLoop_agree (pollOps pollOps2 : Nat → AsyncOutcome FetchReply)
    (hagree : ∀ n, n < maxAttempts → pollOps n = pollOps2 n) :
    ∀ fuel status attempts lastStatusData,
      pollLoop pollOps fuel status attempts lastStatusData =
        pollLoop pollOps2 fuel status attempts lastStatusData := by
  intro fuel
  induction fuel with
  | zero => intro status attempts last; rfl
  | succ fuel ih =>
    intro status attempts last
    unfold pollLoop
    split
    · rfl
    · rename_i hcond
      have hlt : attempts < maxAttempts := by
        simp only [Bool.or_eq_true, not_or, decide_eq_true_eq] at hcond
        omega
      rw [hagree attempts hlt]
      simp only [ih]

theorem pollLoop_early_exit (pollOps : Nat → AsyncOutcome FetchReply)
    (fuel attempts : Nat) (status lastStatusData newStatus : Option Json)
    (reply : FetchReply)
    (hidle : isIdleStatus status = false) (hlt : attempts < maxAttempts)
    (hop : awaitRaw (pollOps attempts) = some reply) (hok : reply.ok = true)
    (hst : jsGet reply.jsonBody "status" = .ok newStatus)
    (h15 : 15 ≤ attempts + 1)
    (hprog : optTruthy (progressOf reply.jsonBody) = true)
    (hfound : jsGEnum (jsField? (progressOf reply.jsonBody) "found") 3 = true) :
    pollLoop pollOps (fuel + 1) status attempts lastStatusData =
      some (.ok (newStatus, attempts + 1, some reply.jsonBody)) := by
  unfold pollLoop
  have hnle : ¬ maxAttempts ≤ attempts := Nat.not_le.mpr hlt
  simp [hidle, hnle, hop, hok, hst, h15, hprog, hfound]

/-- C3: the webset polling loop, started with its configured fuel, (a)
terminates with an attempt counter of at most `maxAttempts`, so its total
sleep time (`pollIntervalMs` per attempt) is bounded by
`maxAttempts * pollIntervalMs`, (b) consults only the first `maxAttempts`
upstream replies regardless of the statuses they report, and (c) stops
immediately after any poll whose reply arrives with `attempts + 1 ≥ 15`, a
truthy progress object, and at least 3 found results, even when the job is
not idle. -/
theorem C3_poll_termination_and_early_exit
    (pollOps pollOps2 : Nat → AsyncOutcome FetchReply) :
    (∀ status0 statusF attemptsF lastF,
       pollLoop pollOps maxAttempts status0 0 none =
         some (.ok (statusF, attemptsF, lastF)) →
       attemptsF ≤ maxAttempts ∧
       attemptsF * pollIntervalMs ≤ maxAttempts * pollIntervalMs) ∧
    ((∀ n, n < maxAttempts → pollOps n = pollOps2 n) →
      ∀ status0 attempts0 last0,
        pollLoop pollOps maxAttempts status0 attempts0 last0 =
          pollLoop pollOps2 maxAttempts status0 attempts0 last0) ∧
    (∀ fuel attempts status lastStatusData newStatus reply,
       isIdleStatus status = false → attempts < maxAttempts →
       awaitRaw (pollOps attempts) = some reply → reply.ok = true →
       jsGet reply.jsonBody "status" = .ok newStatus →
       15 ≤ attempts + 1 →
       optTruthy (progressOf reply.jsonBody) = true →
       jsGEnum (jsField? (progressOf reply.jsonBody) "found") 3 = true →
       pollLoop pollOps (fuel + 1) status attempts lastStatusData =
         some (.ok (newStatus, attempts + 1, some reply.jsonBody))) := by
  refine ⟨?_, ?_, ?_⟩
  · intro status0 statusF attemptsF lastF h
    have hle := pollLoop_attempts_le pollOps maxAttempts status0 0 none statusF attemptsF lastF h
    exact ⟨by omega, Nat.mul_le_mul_right pollIntervalMs (by omega)⟩
  · intro hagree status0 attempts0 last0
    exact pollLoop_agree pollOps pollOps2 hagree maxAttempts status0 attempts0 last0
  · intro fuel attempts status lastStatusData newStatus reply hidle hlt hop hok hst h15 hprog hfound
    exact pollLoop_early_exit pollOps fuel attempts status lastStatusData newStatus reply
      hidle hlt hop hok hst h15 hprog hfound

/-- C3 witness: the early-exit conjunct applied to a concrete 15th poll that
reports 5 found results on a still-running job. -/
theorem C3_witness :
    pollLoop
      (fun _ => .completesAt 1 ⟨true, 200,
        Json.obj [("status", .str "running"),
          ("searches", .arr [.obj [("progress", .obj [("found", .num 5)])]])], ""⟩)
      (5 + 1) (some (.str "running")) 14 none =
      some (.ok (some (.str "running"), 14 + 1,
        some (Json.obj [("status", .str "running"),
          ("searches", .arr [.obj [("progress", .obj [("found", .num 5)])]])]))) :=
  (C3_poll_termination_and_early_exit
    (fun _ => .completesAt 1 ⟨true, 200,
      Json.obj [("status", .str "running"),
        ("searches", .arr [.obj [("progress", .obj [("found", .num 5)])]])], ""⟩)
    (fun _ => .completesAt 1 ⟨true, 200,
      Json.obj [("status", .str "running"),
        ("searches", .arr [.obj [("progress", .obj [("found", .num 5)])]])], ""⟩)).2.2
    5 14 (some (.str "running")) none (some (.str "running"))
    ⟨true, 200,
      Json.obj [("status", .str "running"),
        ("searches", .arr [.obj [("progress", .obj [("found", .num 5)])]])], ""⟩
    (by decide) (by decide) rfl rfl rfl (by decide) rfl rfl

/-! ## C4 -/

/-- A canned webset status body with the given `status` string and optional
`found` counter, shaped per the webset status contract. -/
def websetStatusBody (st : String) (found : Option Int) : Json :=
  .obj [("status", .str st),
        ("searches", .arr [.obj [("progress",
          .obj (match found with
                | none => []
                | some f => [("found", .num f)]))]])]

def websetStatusReply (st : String) (found : Option Int) : FetchReply :=
  ⟨true, 200, websetStatusBody st found, ""⟩

theorem websetStatusBody_status (st : String) (found : Option Int) :
    jsGet (websetStatusBody st found) "status" = .ok (some (.str st)) := rfl

theorem websetStatusBody_progress_truthy (st : String) (found : Option Int) :
    optTruthy (progressOf (websetStatusBody st found)) = true := by
  cases found <;> rfl

theorem isIdleStatus_str {s : String} (h : s ≠ "idle") :
    isIdleStatus (some (.str s)) = false := by
  simp [isIdleStatus, h]

/-- One iteration of the polling loop that does not trigger the early exit:
the loop continues with the new status and incremented attempt counter. -/
theorem pollLoop_iterate_continue (pollOps : Nat → AsyncOutcome FetchReply)
    (fuel attempts : Nat) (status lastStatusData newStatus : Option Json)
    (reply : FetchReply)
    (hidle : isIdleStatus status = false) (hlt : attempts < maxAttempts)
    (hop : awaitRaw (pollOps attempts) = some reply) (hok : reply.ok = true)
    (hst : jsGet reply.jsonBody "status" = .ok newStatus)
    (hee : (15 ≤ attempts + 1 && optTruthy (progressOf reply.jsonBody) &&
      jsGEnum (jsField? (progressOf reply.jsonBody) "found") 3) = false) :
    pollLoop pollOps (fuel + 1) status attempts lastStatusData =
      pollLoop pollOps fuel newStatus (attempts + 1) (some reply.jsonBody) := by
  have hnle : ¬ maxAttempts ≤ attempts := Nat.not_le.mpr hlt
  conv_lhs => unfold pollLoop
  simp [hidle, hnle, hop, hok, hst]
  intro h1 h2 h3
  have htrue : (decide (15 ≤ attempts + 1) && optTruthy (progressOf reply.jsonBody) &&
      jsGEnum (jsField? (progressOf reply.jsonBody) "found") 3) = true := by
    rw [h2, h3]
    simp
    omega
  rw [hee] at htrue
  cases htrue

theorem pollLoop_exhaust_nofound (pollOps : Nat → AsyncOutcome FetchReply)
    (stn : Nat → String) (tn : Nat → Nat) (fnd : Nat → Option Int)
    (hops : ∀ n, pollOps n = .completesAt (tn n) (websetStatusReply (stn n) (fnd n)))
    (hst : ∀ n, stn n ≠ "idle")
    (hfnd : ∀ n, fnd n = none ∨ fnd n = some 0) :
    ∀ fuel attempts status lastStatusData,
      attempts + fuel = maxAttempts → 0 < fuel → isIdleStatus status = false →
      pollLoop pollOps fuel status attempts lastStatusData =
        some (.ok (some (.str (stn (maxAttempts - 1))), maxAttempts,
          some (websetStatusBody (stn (maxAttempts - 1)) (fnd (maxAttempts - 1))))) := by
  intro fuel
  induction fuel with
  | zero =>
    intro attempts status last hsum hpos hidle
    omega
  | succ fuel ih =>
    intro attempts status last hsum hpos hidle
    have hlt : attempts < maxAttempts := by omega
    have hop : awaitRaw (pollOps attempts) =
        some (websetStatusReply (stn attempts) (fnd attempts)) := by
      rw [hops attempts]; rfl
    have hfound : jsGEnum (jsField?
        (progressOf (websetStatusBody (stn attempts) (fnd attempts))) "found") 3 = false := by
      rcases hfnd attempts with h | h <;> rw [h] <;> rfl
    have hee : (15 ≤ attempts + 1 &&
        optTruthy (progressOf (websetStatusReply (stn attempts) (fnd attempts)).jsonBody) &&
        jsGEnum (jsField? (progressOf
          (websetStatusReply (stn attempts) (fnd attempts)).jsonBody) "found") 3) = false := by
      show (15 ≤ attempts + 1 &&
        optTruthy (progressOf (websetStatusBody (stn attempts) (fnd attempts))) &&
        jsGEnum (jsField? (progressOf
          (websetStatusBody (stn attempts) (fnd attempts))) "found") 3) = false
      rw [hfound]
      simp
    rw [pollLoop_iterate_continue pollOps fuel attempts status last
      (some (.str (stn attempts))) (websetStatusReply (stn attempts) (fnd attempts))
      hidle hlt hop rfl (websetStatusBody_status (stn attempts) (fnd attempts)) hee]
    by_cases hfz : fuel = 0
    · subst hfz
      have h2 : attempts + 1 = maxAttempts := by omega
      have h1 : attempts = maxAttempts - 1 := by omega
      rw [h2, h1]
      rfl
    · exact ih (attempts + 1) (some (.str (stn attempts)))
        (some (websetStatusBody (stn attempts) (fnd attempts)))
        (by omega) (by omega) (isIdleStatus_str (hst attempts))

theorem pollLoop_found_invariant (pollOps : Nat → AsyncOutcome FetchReply)
    (stn : Nat → String) (tn : Nat → Nat) (m : Nat → Int)
    (hops : ∀ n, pollOps n = .completesAt (tn n) (websetStatusReply (stn n) (some (m n)))) :
    ∀ fuel status attempts k0,
      ∃ st2 att2 k, pollLoop pollOps fuel status attempts
        (some (websetStatusBody (stn k0) (some (m k0)))) =
        some (.ok (st2, att2, some (websetStatusBody (stn k) (some (m k))))) := by
  intro fuel
  induction fuel with
  | zero =>
    intro status attempts k0
    exact ⟨status, attempts, k0, rfl⟩
  | succ fuel ih =>
    intro status attempts k0
    by_cases hexit : (isIdleStatus status || decide (maxAttempts ≤ attempts)) = true
    · refine ⟨status, attempts, k0, ?_⟩
      unfold pollLoop
      rw [if_pos hexit]
    · have hidle : isIdleStatus status = false := by
        simp only [Bool.or_eq_true, not_or] at hexit
        simpa using hexit.1
      have hlt : attempts < maxAttempts := by
        simp only [Bool.or_eq_true, not_or, decide_eq_true_eq] at hexit
        omega
      have hop : awaitRaw (pollOps attempts) =
          some (websetStatusReply (stn attempts) (some (m attempts))) := by
        rw [hops attempts]; rfl
      by_cases hee : (15 ≤ attempts + 1 &&
          optTruthy (progressOf (websetStatusReply (stn attempts) (some (m attempts))).jsonBody) &&
          jsGEnum (jsField? (progressOf
            (websetStatusReply (stn attempts) (some (m attempts))).jsonBody) "found") 3) = true
      · refine ⟨some (.str (stn attempts)), attempts + 1, attempts, ?_⟩
        rw [pollLoop_early_exit pollOps fuel attempts status
          (some (websetStatusBody (stn k0) (some (m k0))))
          (some (.str (stn attempts))) (websetStatusReply (stn attempts) (some (m attempts)))
          hidle hlt hop rfl (websetStatusBody_status (stn attempts) (some (m attempts)))
          ?h15 ?hpr ?hfo]
        · rfl
        case h15 =>
          have h := hee
          simp only [Bool.and_eq_true, decide_eq_true_eq] at h
          exact h.1.1
        case hpr =>
          exact websetStatusBody_progress_truthy (stn attempts) (some (m attempts))
        case hfo =>
          have h := hee
          simp only [Bool.and_eq_true] at h
          exact h.2
      · have hee2 : (15 ≤ attempts + 1 &&
            optTruthy (progressOf (websetStatusReply (stn attempts) (some (m attempts))).jsonBody) &&
            jsGEnum (jsField? (progressOf
              (websetStatusReply (stn attempts) (some (m attempts))).jsonBody) "found") 3) = false := by
          revert hee
          cases (15 ≤ attempts + 1 &&
            optTruthy (progressOf (websetStatusReply (stn attempts) (some (m attempts))).jsonBody) &&
            jsGEnum (jsField? (progressOf
              (websetStatusReply (stn attempts) (some (m attempts))).jsonBody) "found") 3) <;> simp
        rw [pollLoop_iterate_continue pollOps fuel attempts status
          (some (websetStatusBody (stn k0) (some (m k0))))
          (some (.str (stn attempts))) (websetStatusReply (stn attempts) (some (m attempts)))
          hidle hlt hop rfl (websetStatusBody_status (stn attempts) (some (m attempts))) hee2]
        exact ih (some (.str (stn attempts))) (attempts + 1) attempts

theorem foundOf_websetStatusBody (st : String) (found : Option Int) :
    foundOf (some (websetStatusBody st found)) = found.map Json.num := by
  cases found <;> rfl

/-- C4: when the webset polling loop stops without the job reaching idle,
(a) with zero results found on every poll the match finder fails with the
match-timeout error for every items oracle — the items fetch is never
consulted — and (b) with at least one result found on every poll it
proceeds to the items fetch and returns exactly what the item mapping
produces (partial-success policy). -/
theorem C4_timeout_vs_partial_success (tc : Nat) (wid st0 : String)
    (hst0 : st0 ≠ "idle") :
    (∀ (pollOps : Nat → AsyncOutcome FetchReply) (stn : Nat → String)
       (tn : Nat → Nat) (fnd : Nat → Option Int),
       (∀ n, pollOps n = .completesAt (tn n) (websetStatusReply (stn n) (fnd n))) →
       (∀ n, stn n ≠ "idle") →
       (∀ n, fnd n = none ∨ fnd n = some 0) →
       ∀ itemsOp,
         websetFindMatchingProfiles
           (.completesAt tc ⟨true, 201, .obj [("id", .str wid), ("status", .str st0)], ""⟩)
           pollOps itemsOp =
           some (.error (.error "Webset processing timed out without finding any results. Try a broader search query."))) ∧
    (∀ (pollOps : Nat → AsyncOutcome FetchReply) (stn : Nat → String)
       (tn : Nat → Nat) (m : Nat → Int),
       (∀ n, pollOps n = .completesAt (tn n) (websetStatusReply (stn n) (some (m n)))) →
       (∀ n, stn n ≠ "idle") →
       (∀ n, 1 ≤ m n) →
       ∀ itemsOp,
         websetFindMatchingProfiles
           (.completesAt tc ⟨true, 201, .obj [("id", .str wid), ("status", .str st0)], ""⟩)
           pollOps itemsOp = websetItemsPhase itemsOp) := by
  have hid : jsGet (Json.obj [("id", .str wid), ("status", .str st0)]) "id" =
      .ok (some (.str wid)) := rfl
  have hstt : jsGet (Json.obj [("id", .str wid), ("status", .str st0)]) "status" =
      .ok (some (.str st0)) := rfl
  constructor
  · intro pollOps stn tn fnd hops hstn hfnd itemsOp
    have hloop := pollLoop_exhaust_nofound pollOps stn tn fnd hops hstn hfnd
      maxAttempts 0 (some (.str st0)) none (by omega) (by decide)
      (isIdleStatus_str hst0)
    have hcond : matchTimeoutCond (some (.str (stn (maxAttempts - 1))))
        (some (websetStatusBody (stn (maxAttempts - 1)) (fnd (maxAttempts - 1)))) = true := by
      unfold matchTimeoutCond
      rw [foundOf_websetStatusBody, isIdleStatus_str (hstn (maxAttempts - 1))]
      rcases hfnd (maxAttempts - 1) with h | h <;> rw [h] <;> rfl
    unfold websetFindMatchingProfiles
    simp only [awaitRaw, hid, hstt, hloop, hcond, Bool.not_false, Bool.not_true,
      if_true, if_false]
    simp
  · intro pollOps stn tn m hops hstn hm itemsOp
    have hop0 : awaitRaw (pollOps 0) =
        some (websetStatusReply (stn 0) (some (m 0))) := by
      rw [hops 0]; rfl
    have hee : (15 ≤ 0 + 1 &&
        optTruthy (progressOf (websetStatusReply (stn 0) (some (m 0))).jsonBody) &&
        jsGEnum (jsField? (progressOf
          (websetStatusReply (stn 0) (some (m 0))).jsonBody) "found") 3) = false := by
      simp
    have hstep : pollLoop pollOps maxAttempts (some (.str st0)) 0 none =
        pollLoop pollOps 19 (some (.str (stn 0))) 1
          (some (websetStatusBody (stn 0) (some (m 0)))) := by
      have := pollLoop_iterate_continue pollOps 19 0 (some (.str st0)) none
        (some (.str (stn 0))) (websetStatusReply (stn 0) (some (m 0)))
        (isIdleStatus_str hst0) (by decide) hop0 rfl
        (websetStatusBody_status (stn 0) (some (m 0))) hee
      exact this
    obtain ⟨st2, att2, k, hres⟩ := pollLoop_found_invariant pollOps stn tn m hops
      19 (some (.str (stn 0))) 1 0
    have hmk : m k ≠ 0 := by have := hm k; omega
    have hcond : matchTimeoutCond st2
        (some (websetStatusBody (stn k) (some (m k)))) = false := by
      unfold matchTimeoutCond
      rw [foundOf_websetStatusBody]
      simp [optTruthy, Json.truthy, hmk]
    unfold websetFindMatchingProfiles
    simp only [awaitRaw, hid, hstt, hstep, hres, hcond, Bool.not_false, Bool.not_true,
      if_true, if_false]
    simp

/-- C4 witness: both policies at concrete oracles — a run whose polls never
find anything ends in the match timeout, and a run whose polls report one
found result hands over to the items phase. -/
theorem C4_witness :
    websetFindMatchingProfiles
      (.completesAt 1 ⟨true, 201, .obj [("id", .str "w"), ("status", .str "running")], ""⟩)
      (fun _ => .completesAt 1 (websetStatusReply "running" none))
      (.completesAt 2 ⟨true, 200, .obj [("items", .arr []), ("extra", .num 1)], ""⟩) =
      some (.error (.error "Webset processing timed out without finding any results. Try a broader search query.")) ∧
    websetFindMatchingProfiles
      (.completesAt 1 ⟨true, 201, .obj [("id", .str "w"), ("status", .str "running")], ""⟩)
      (fun _ => .completesAt 1 (websetStatusReply "running" (some 1)))
      (.completesAt 2 ⟨true, 200, .obj [("items", .arr []), ("extra", .num 1)], ""⟩) =
      websetItemsPhase
        (.completesAt 2 ⟨true, 200, .obj [("items", .arr []), ("extra", .num 1)], ""⟩) :=
  ⟨(C4_timeout_vs_partial_success 1 "w" "running" (by decide)).1
      (fun _ => .completesAt 1 (websetStatusReply "running" none))
      (fun _ => "running") (fun _ => 1) (fun _ => none)
      (fun _ => rfl) (fun _ => show ("running" : String) ≠ "idle" by decide)
      (fun _ => Or.inl rfl)
      (.completesAt 2 ⟨true, 200, .obj [("items", .arr []), ("extra", .num 1)], ""⟩),
   (C4_timeout_vs_partial_success 1 "w" "running" (by decide)).2
      (fun _ => .completesAt 1 (websetStatusReply "running" (some 1)))
      (fun _ => "running") (fun _ => 1) (fun _ => 1)
      (fun _ => rfl) (fun _ => show ("running" : String) ≠ "idle" by decide)
      (fun _ => show (1 : Int) ≤ 1 by decide)
      (.completesAt 2 ⟨true, 200, .obj [("items", .arr []), ("extra", .num 1)], ""⟩)⟩

/-! ## C5 -/

/-- The operation misses the given deadline: it never settles strictly
before `deadlineMs` (in particular, an operation that never settles). -/
def deadlineExceeded (op : AsyncOutcome α) (deadlineMs : Nat) : Prop :=
  ∀ t r, op = .completesAt t r → deadlineMs ≤ t

theorem fetchWithTimeout_exceeded {op : AsyncOutcome FetchReply} {ms : Nat} {msg : String}
    (h : deadlineExceeded op ms) : fetchWithTimeout op ms msg = .error (.error msg) := by
  cases op with
  | never => rfl
  | completesAt t r =>
    have ht := h t r rfl
    show (if t < ms then Except.ok r else Except.error (JsError.error msg)) =
      Except.error (JsError.error msg)
    rw [if_neg (Nat.not_lt.mpr ht)]

theorem withTimeout_exceeded {α : Type} {op : AsyncOutcome α} {ms : Nat} {msg : String}
    (h : deadlineExceeded op ms) : withTimeout op ms msg = .error (.error msg) := by
  cases op with
  | never => rfl
  | completesAt t r =>
    have ht := h t r rfl
    show (if t < ms then Except.ok r else Except.error (JsError.error msg)) =
      Except.error (JsError.error msg)
    rw [if_neg (Nat.not_lt.mpr ht)]

theorem fetchWithTimeout_completes {op : AsyncOutcome FetchReply} {ms t : Nat}
    {r : FetchReply} {msg : String} (h : op = .completesAt t r) (ht : t < ms) :
    fetchWithTimeout op ms msg = .ok r := by
  subst h
  show (if t < ms then Except.ok r else Except.error (JsError.error msg)) = Except.ok r
  rw [if_pos ht]

/-- C5 counterexample: in the webset revision the create, poll, and items
calls carry no deadline at all — a run in which every external call takes
3 600 000 ms, far beyond every configured deadline constant, still succeeds
with mapped profiles instead of failing with a timeout error. -/
theorem C5_counterexample :
    EXA_REQUEST_TIMEOUT_MS ≤ 3600000 ∧ AI_REQUEST_TIMEOUT_MS ≤ 3600000 ∧
    CLADO_REQUEST_TIMEOUT_MS ≤ 3600000 ∧
    websetFindMatchingProfiles
      (.completesAt 3600000 ⟨true, 201,
        .obj [("id", .str "w"), ("status", .str "running")], ""⟩)
      (fun _ => .completesAt 3600000 (websetStatusReply "idle" (some 5)))
      (.completesAt 3600000 ⟨true, 200,
        .obj [("items", .arr [.obj [("url", .str "u")]])], ""⟩) =
      some (.ok [⟨some (.str "u"), some (.str "LinkedIn Profile"),
        some (.str "Professional profile")⟩]) :=
  ⟨by decide, by decide, by decide, rfl⟩

/-- C5 (amended): in the Clado worker each external call — crawl, inference,
search — is individually wrapped with its own deadline, and exceeding it
fails the request with a message identifying that stage; the webset
revision's search-create, search-poll, and search-items calls are bare
fetches with no deadline (a create call that never settles hangs the request
forever instead of failing with a Timeout). -/
theorem C5_stage_deadlines (crawlOp : AsyncOutcome FetchReply) (aiOp : AsyncOutcome Json)
    (jsonParse : String → Option Json) (searchOp : String → AsyncOutcome FetchReply)
    (pts : List Json) (goal apiKey : String) :
    (deadlineExceeded crawlOp EXA_REQUEST_TIMEOUT_MS →
      runAnalyze crawlOp aiOp jsonParse =
        .error (.error "Failed to crawl LinkedIn profile: Exa API request timed out after 30 seconds")) ∧
    (∀ tc rc markdown, crawlOp = .completesAt tc rc → tc < EXA_REQUEST_TIMEOUT_MS →
      rc.ok = true → crawlExtractText rc.jsonBody = .ok markdown →
      deadlineExceeded aiOp AI_REQUEST_TIMEOUT_MS →
      runAnalyze crawlOp aiOp jsonParse =
        .error (.error "Failed to extract career highlights: Failed to extract points of interest from LinkedIn profile: Workers AI request timed out")) ∧
    (∀ pd, pointsDescription pts = .ok pd → apiKey ≠ "" → jsTrim apiKey ≠ "" →
      (∀ q, deadlineExceeded (searchOp q) CLADO_REQUEST_TIMEOUT_MS) →
      findMatchingProfiles pts goal apiKey searchOp =
        .error (.error "Clado API request timed out")) ∧
    (∀ pollOps itemsOp,
      websetFindMatchingProfiles .never pollOps itemsOp = none) := by
  refine ⟨?_, ?_, ?_, ?_⟩
  · intro h
    unfold runAnalyze crawlLinkedInProfile
    rw [fetchWithTimeout_exceeded h]
    rfl
  · intro tc rc markdown hcr htc hok hext h
    have hcrawl : crawlLinkedInProfile crawlOp = .ok markdown := by
      unfold crawlLinkedInProfile
      rw [fetchWithTimeout_completes hcr htc]
      simp [hok, hext]
    unfold runAnalyze
    rw [hcrawl]
    unfold extractCriteria extractCriteriaTry
    rw [withTimeout_exceeded h]
    rfl
  · intro pd hpd hk1 hk2 h
    have hq : cladoQuery goal pts =
        Except.ok (goal ++ ". Looking for professionals with: " ++ pd) := by
      simp only [cladoQuery, hpd, Bind.bind, Except.bind, Pure.pure, Except.pure]
    unfold findMatchingProfiles
    rw [hq]
    simp only [Bind.bind, Except.bind]
    rw [fetchWithTimeout_exceeded (h _)]
    simp [hk1, hk2]
  · intro pollOps itemsOp
    rfl

/-- C5 witness: the three stage-timeout conclusions and the webset hang at
concrete operations. -/
theorem C5_witness :
    runAnalyze AsyncOutcome.never (.completesAt 1 (.str "x")) (fun _ => none) =
      .error (.error "Failed to crawl LinkedIn profile: Exa API request timed out after 30 seconds") ∧
    runAnalyze (.completesAt 5 ⟨true, 200, .obj [("context", .str "Jane")], ""⟩)
      AsyncOutcome.never (fun _ => none) =
      .error (.error "Failed to extract career highlights: Failed to extract points of interest from LinkedIn profile: Workers AI request timed out") ∧
    findMatchingProfiles [Json.obj [("description", .str "d")]] "CEO" "lk_k"
      (fun _ => AsyncOutcome.never) =
      .error (.error "Clado API request timed out") ∧
    websetFindMatchingProfiles AsyncOutcome.never
      (fun _ => .completesAt 1 (websetStatusReply "idle" (some 5)))
      (.completesAt 1 ⟨true, 200, .obj [("items", .arr [])], ""⟩) = none :=
  ⟨(C5_stage_deadlines AsyncOutcome.never (.completesAt 1 (.str "x")) (fun _ => none)
      (fun _ => AsyncOutcome.never) [] "" "").1 (fun t r h => nomatch h),
   (C5_stage_deadlines (.completesAt 5 ⟨true, 200, .obj [("context", .str "Jane")], ""⟩)
      AsyncOutcome.never (fun _ => none) (fun _ => AsyncOutcome.never) [] "" "").2.1
      5 ⟨true, 200, .obj [("context", .str "Jane")], ""⟩ "Jane" rfl (by decide) rfl rfl
      (fun t r h => nomatch h),
   (C5_stage_deadlines AsyncOutcome.never (.completesAt 1 (.str "x")) (fun _ => none)
      (fun _ => AsyncOutcome.never) [Json.obj [("description", .str "d")]] "CEO" "lk_k").2.2.1
      "d" rfl (by decide) (by decide) (fun q t r h => nomatch h),
   (C5_stage_deadlines AsyncOutcome.never (.completesAt 1 (.str "x")) (fun _ => none)
      (fun _ => AsyncOutcome.never) [] "" "").2.2.2
      (fun _ => .completesAt 1 (websetStatusReply "idle" (some 5)))
      (.completesAt 1 ⟨true, 200, .obj [("items", .arr []), ("x", .num 1)], ""⟩)⟩
